import Mathlib

/-!
# DuckLake ORDER BY / WHERE reproduction harness (`main.go`)

A shallow embedding of the Go program.  The program is a straight line of calls
into external services (the DuckDB driver, `database/sql`, the clock, standard
output, `log.Fatal`).  Every such call is recorded as an `Event` in a
chronological trace, together with the answer the outside world gave; the
outside world is an `Env` whose answers may depend on the whole history.

* `log.Fatal*` ends the process (`os.Exit(1)`): deferred calls do not run.
* Go `error` values are represented by their `Error()` text.
* `log` prefixes each message with a date and time; only the message body is
  modelled.
-/

namespace Repro

/-! ## Values -/

/-- A Go `error`, represented by the text of `Error()`. -/
abbrev Err := String

/-- Two's-complement wraparound of Go `int64` arithmetic. -/
def wrapInt64 (x : Int) : Int := (x + 2 ^ 63) % 2 ^ 64 - 2 ^ 63

/-- Go `time.Duration`: an `int64` count of nanoseconds. -/
abbrev Duration := Int

/-- Go `time.Minute` (`60 * Second`, `Second = 1e9` nanoseconds). -/
def Minute : Duration := 60 * 1000000000

/-- Wall-clock reading of a Go `time.Time`: seconds since the epoch and the
nanosecond offset within the second.  The monotonic reading and the packed
33-bit encoding of the seconds are not modelled. -/
structure Time where
  sec : Int
  nsec : Int
deriving DecidableEq, Repr

/-- Invariant of `time.Time`: the nanosecond field lies in `[0, 999999999]`. -/
def Time.Valid (t : Time) : Prop := 0 ≤ t.nsec ∧ t.nsec < 1000000000

instance (t : Time) : Decidable t.Valid :=
  inferInstanceAs (Decidable (0 ≤ t.nsec ∧ t.nsec < 1000000000))

/-- Go `Time.Add`: `dsec := d / 1e9`, `nsec := t.nsec() + d % 1e9` (truncated
division), followed by one carry or borrow step. -/
def Time.Add (t : Time) (d : Duration) : Time :=
  let dsec := Int.tdiv d 1000000000
  let nsec := t.nsec + Int.tmod d 1000000000
  if nsec ≥ 1000000000 then ⟨t.sec + (dsec + 1), nsec - 1000000000⟩
  else if nsec < 0 then ⟨t.sec + (dsec - 1), nsec + 1000000000⟩
  else ⟨t.sec + dsec, nsec⟩

/-- Go `Time.After` on wall-clock readings. -/
def Time.After (t u : Time) : Prop :=
  t.sec > u.sec ∨ (t.sec = u.sec ∧ t.nsec > u.nsec)

instance (t u : Time) : Decidable (t.After u) :=
  inferInstanceAs (Decidable (t.sec > u.sec ∨ (t.sec = u.sec ∧ t.nsec > u.nsec)))

/-- Position of an instant on the nanosecond time line. -/
def Time.nanos (t : Time) : Int := t.sec * 1000000000 + t.nsec

/-- Bind argument of a parameterised statement (`args ...any`). -/
inductive Arg where
  | str (s : String)
  | time (t : Time)
deriving DecidableEq, Repr

/-! ## Events and the outside world -/

/-- One interaction of the process with the outside world, with its answer. -/
inductive Event where
  /-- Text written to standard output by `fmt.Println` / `fmt.Printf`. -/
  | stdout (text : String)
  /-- Body of the message of `log.Fatal` / `log.Fatalf`; the process exits. -/
  | fatal (msg : String)
  /-- Call `duckdb.NewConnector("", nil)`. -/
  | newConnector (err : Option Err)
  /-- Call `sql.OpenDB(connector)`. -/
  | openDB
  /-- Call `db.Exec(query, args...)`. -/
  | exec (query : String) (args : List Arg) (err : Option Err)
  /-- Call `db.Query(query)`. -/
  | query (query : String) (err : Option Err)
  /-- Call `rows.Next()` that returned `true`. -/
  | nextRow
  /-- Call `rows.Next()` that returned `false`; `err` is what `rows.Err()`
  would report (the program never asks). -/
  | nextDone (err : Option Err)
  /-- Call `rows.Scan(&id, &cat)`: the contents of `id` and `cat` afterwards,
  and the returned error. -/
  | scan (id cat : String) (err : Option Err)
  /-- Deferred `rows.Close()`. -/
  | rowsClose
  /-- Call `db.Conn(ctx)`. -/
  | conn (err : Option Err)
  /-- Call `conn.BeginTx(ctx, nil)`. -/
  | beginTx (err : Option Err)
  /-- Call `tx.ExecContext(ctx, query)`. -/
  | txExec (query : String) (err : Option Err)
  /-- Call `tx.Rollback()`. -/
  | rollback (err : Option Err)
  /-- Call `tx.Commit()`. -/
  | commit (err : Option Err)
  /-- Deferred `conn.Close()`. -/
  | connClose
  /-- Deferred `db.Close()`. -/
  | dbClose
  /-- Deferred `connector.Close()`. -/
  | connectorClose
deriving DecidableEq, Repr

/-- What one `rows.Next()` / `rows.Scan(&id, &cat)` round leaves behind: the
contents of the freshly declared `id` and `cat` after `Scan`, and the error
`Scan` returned. -/
structure ScanOutcome where
  id : String
  cat : String
  err : Option Err
deriving DecidableEq, Repr

/-- Behaviour of the `*sql.Rows` handed out by a successful `db.Query`: one
`ScanOutcome` per `Next()` that returns `true`, then `Next()` returns `false`
with `iterErr` as the value of `rows.Err()`. -/
structure RowsScript where
  scans : List ScanOutcome
  iterErr : Option Err
deriving DecidableEq, Repr

/-- The outside world.  Each field answers one kind of call; the first argument
of the history-dependent fields is the trace of everything that happened before
the call. -/
structure Env where
  newConnector : Option Err
  now : Time
  exec : List Event → String → List Arg → Option Err
  query : List Event → String → Except Err RowsScript
  conn : List Event → Option Err
  beginTx : List Event → Option Err
  txExec : List Event → String → Option Err
  rollback : List Event → Option Err
  commit : List Event → Option Err

/-- Result of running a piece of the program from a given history: it returned
a value, or the process was terminated by `log.Fatal`. -/
inductive Res (α : Type) where
  | ret (a : α) (tr : List Event)
  | exit (tr : List Event)

/-- Trace at the end of a run. -/
def Res.trace {α : Type} : Res α → List Event
  | .ret _ tr => tr
  | .exit tr => tr

/-- Whether the run returned to its caller. -/
def Res.returned {α : Type} : Res α → Bool
  | .ret _ _ => true
  | .exit _ => false

/-- A piece of the program: from the history so far to a result. -/
def Prog (α : Type) : Type := List Event → Res α

/-- Sequencing: nothing runs after the process has exited. -/
def Prog.bind {α β : Type} (m : Prog α) (f : α → Prog β) : Prog β := fun tr =>
  match m tr with
  | .ret a tr1 => f a tr1
  | .exit tr1 => .exit tr1

instance : Monad Prog where
  pure a := fun tr => .ret a tr
  bind := Prog.bind

/-- Record an event. -/
def emit (e : Event) : Prog Unit := fun tr => .ret () (tr ++ [e])

/-- Make an external call: ask the world, record the call with its answer. -/
def call {ρ : Type} (answer : List Event → ρ) (ev : ρ → Event) : Prog ρ := fun tr =>
  .ret (answer tr) (tr ++ [ev (answer tr)])

/-- Go `fmt.Println(s)`. -/
def println (s : String) : Prog Unit := emit (.stdout (s ++ "\n"))

/-- Go `log.Fatal` / `log.Fatalf` with message body `msg`: print, then exit. -/
def logFatal {α : Type} (msg : String) : Prog α := fun tr => .exit (tr ++ [.fatal msg])

/-- Go `for i := range n { body }`. -/
def forRange (n : Nat) (body : Nat → Prog Unit) : Prog Unit :=
  (List.range n).foldl (fun acc i => acc >>= fun _ => body i) (pure ())

/-- The error of a `db.Query` answer, if any. -/
def queryErr : Except Err RowsScript → Option Err
  | .error e => some e
  | .ok _ => none

/-! ## Constants and statement texts -/

def pgDSN : String := "host=postgres port=5432 dbname=ducklake user=ducklake password=ducklake"
def s3Key : String := "rustfsadmin"
def s3Secret : String := "rustfsadmin"
def s3Endpoint : String := "s3:9000"

def installSQL : String := "INSTALL ducklake; LOAD ducklake;"

def secretSQL : String :=
  "\n\t\tCREATE OR REPLACE SECRET s3_secret (\n\t\t\tTYPE s3, PROVIDER config,\n\t\t\tKEY_ID '"
    ++ s3Key ++ "', SECRET '" ++ s3Secret ++ "', ENDPOINT '" ++ s3Endpoint
    ++ "',\n\t\t\tUSE_SSL false, URL_STYLE 'path'\n\t\t);\n\t"

def attachSQL : String :=
  "\n\t\tATTACH 'ducklake:postgres:" ++ pgDSN
    ++ "' AS lake (\n\t\t\tDATA_PATH 's3://ducklake/data',\n\t\t\tDATA_INLINING_ROW_LIMIT 100\n\t\t);\n\t"

def createSQL : String :=
  "\n\t\tCREATE TABLE IF NOT EXISTS lake.test_data (\n\t\t\tid VARCHAR NOT NULL,\n\t\t\tcategory VARCHAR NOT NULL,\n\t\t\tcreated_at TIMESTAMP NOT NULL\n\t\t);\n\t"

def insertSQL : String := "INSERT INTO lake.test_data VALUES (?, ?, ?)"

def selectSQL : String :=
  "SELECT id, category FROM lake.test_data WHERE category = 'A' ORDER BY created_at DESC LIMIT 3"

def flushSQL : String := "CALL ducklake_flush_inlined_data('lake');"

/-! ## The program -/

/-- Go `mustExec(db, query, args...)`. -/
def mustExec (env : Env) (query : String) (args : List Arg) : Prog Unit := do
  match ← call (fun tr => env.exec tr query args) (Event.exec query args) with
  | some e => logFatal ("Exec failed: " ++ query ++ "\nError: " ++ e)
  | none => pure ()

/-- Go `connect()`. -/
def connect (env : Env) : Prog Unit := do
  match ← call (fun _ => env.newConnector) Event.newConnector with
  | some e => logFatal e
  | none => pure ()
  emit .openDB
  println "loading ducklake extension"
  mustExec env installSQL []
  println "configuring s3 secret"
  mustExec env secretSQL []
  println "attaching ducklake"
  mustExec env attachSQL []

/-- Go `flush(db)`; the returned value is the `error` (`none` for `nil`).  The
deferred `conn.Close()` runs once the return value has been determined. -/
def flush (env : Env) : Prog (Option Err) := do
  match ← call env.conn Event.conn with
  | some e => pure (some ("failed to get connection: " ++ e))
  | none =>
    let result ← (do
      match ← call env.beginTx Event.beginTx with
      | some e => pure (some ("failed to begin transaction: " ++ e))
      | none =>
        match ← call (fun tr => env.txExec tr flushSQL) (Event.txExec flushSQL) with
        | some e =>
          let _ ← call env.rollback Event.rollback
          pure (some e)
        | none => call env.commit Event.commit)
    emit .connClose
    pure result

/-- The line `fmt.Printf("  %s %s [%s]\n", id, cat, status)` of `runTest`, with
`status` computed as in the loop body. -/
def rowLine (id cat : String) : String :=
  let status := if cat ≠ "A" then "BUG" else "ok"
  "  " ++ id ++ " " ++ cat ++ " [" ++ status ++ "]\n"

/-- The loop `for rows.Next() { ... }` of `runTest`. -/
def rowsLoop (iterErr : Option Err) : List ScanOutcome → Prog Unit
  | [] => emit (.nextDone iterErr)
  | s :: rest => do
    emit .nextRow
    emit (.scan s.id s.cat s.err)
    emit (.stdout (rowLine s.id s.cat))
    rowsLoop iterErr rest

/-- Go `runTest(db)`. -/
def runTest (env : Env) : Prog Unit := do
  match ← call (fun tr => env.query tr selectSQL) (fun r => Event.query selectSQL (queryErr r)) with
  | .error e => logFatal e
  | .ok script =>
    rowsLoop script.iterErr script.scans
    emit .rowsClose

/-- Go `main()`.  The two deferred calls run, last registered first, when
`main` returns normally. -/
def main (env : Env) : Prog Unit := do
  println "connecting"
  connect env
  println "creating table"
  mustExec env createSQL []
  println "inserting 6 rows"
  let now := env.now
  forRange 3 (fun i => do
    let ts := now.Add (wrapInt64 (wrapInt64 (-(i : Int)) * Minute))
    mustExec env insertSQL [.str ("a_" ++ toString i), .str "A", .time ts]
    mustExec env insertSQL [.str ("b_" ++ toString i), .str "B", .time ts])
  println "query: WHERE category='A' ORDER BY created_at DESC LIMIT 3"
  println "before flush:"
  runTest env
  println "flushing to s3"
  match ← flush env with
  | some e => logFatal ("flush failed: " ++ e)
  | none => pure ()
  println "query: WHERE category='A' ORDER BY created_at DESC LIMIT 3"
  println "after flush:"
  runTest env
  emit .connectorClose
  emit .dbClose

/-! ## Observations on traces -/

/-- Lines written to standard output, in order. -/
def stdoutOf (tr : List Event) : List String :=
  tr.filterMap (fun ev => match ev with
    | .stdout text => some text
    | _ => none)

/-- Messages of `log.Fatal` / `log.Fatalf`, in order. -/
def fatalsOf (tr : List Event) : List String :=
  tr.filterMap (fun ev => match ev with
    | .fatal msg => some msg
    | _ => none)

/-- A row of `lake.test_data`. -/
structure Row where
  id : String
  category : String
  created_at : Time
deriving DecidableEq, Repr

/-- Rows stored by the `INSERT` statements that succeeded, in insertion order. -/
def insertedRows (tr : List Event) : List Row :=
  tr.filterMap (fun ev => match ev with
    | .exec q [.str id, .str cat, .time ts] none =>
      if q = insertSQL then some ⟨id, cat, ts⟩ else none
    | _ => none)

/-- Bind arguments of every `INSERT` statement issued, whether it succeeded or
not, in order. -/
def insertAttempts (tr : List Event) : List (List Arg) :=
  tr.filterMap (fun ev => match ev with
    | .exec q args _ => if q = insertSQL then some args else none
    | _ => none)

/-- A statement sent to the engine. -/
inductive Stmt where
  | exec (query : String) (args : List Arg)
  | query (query : String)
  | begin
  | txExec (query : String)
  | commit
  | rollback
deriving DecidableEq, Repr

/-- The statement an event sends to the engine, if it sends one. -/
def stmtOf : Event → Option Stmt
  | .exec q args _ => some (.exec q args)
  | .query q _ => some (.query q)
  | .beginTx _ => some .begin
  | .txExec q _ => some (.txExec q)
  | .commit _ => some .commit
  | .rollback _ => some .rollback
  | _ => none

/-- Statements sent to the engine, in order. -/
def stmtsOf (tr : List Event) : List Stmt := tr.filterMap stmtOf

/-- A setup, create, insert, query or flush step that failed. -/
def Event.failedStep : Event → Bool
  | .newConnector (some _) => true
  | .exec _ _ (some _) => true
  | .query _ (some _) => true
  | .conn (some _) => true
  | .beginTx (some _) => true
  | .txExec _ (some _) => true
  | .commit (some _) => true
  | _ => false

/-- Everything that happened after the first failed step (empty when no step
failed). -/
def afterFirstFailure (tr : List Event) : List Event :=
  (tr.dropWhile (fun ev => !ev.failedStep)).tail

/-- Rows delivered without any scan or iteration error: the `*sql.Rows` of a
result set `result` of `(id, category)` pairs. -/
def scriptOf (result : List (String × String)) : RowsScript :=
  ⟨result.map (fun r => ⟨r.1, r.2, none⟩), none⟩

/-! ## Meaning of the query text -/

/-- Order of `ORDER BY created_at DESC`: `r` may stand before `s`. -/
def descOrder (r s : Row) : Prop := ¬ s.created_at.After r.created_at

instance (r s : Row) : Decidable (descOrder r s) :=
  inferInstanceAs (Decidable (¬ s.created_at.After r.created_at))

/-- The columns `id, category` of the first three rows. -/
def selectLimit3 (rows : List Row) : List (String × String) :=
  (rows.take 3).map (fun r => (r.id, r.category))

/-- The defect named in the header of `main.go`: the `WHERE` clause is ignored,
`ORDER BY created_at DESC LIMIT 3` is applied to all rows of `table`. -/
def OrderLimitNoFilter (table : List Row) (result : List (String × String)) : Prop :=
  ∃ sorted : List Row,
    sorted.Perm table ∧
    sorted.Pairwise descOrder ∧
    result = selectLimit3 sorted

/-! ## The runs of `main`, path by path -/

/-- Timestamp of pair `i`: `now.Add(-time.Duration(i) * time.Minute)`. -/
def pairTime (now : Time) (i : Nat) : Time :=
  now.Add (wrapInt64 (wrapInt64 (-(i : Int)) * Minute))

/-- Message body of `log.Fatalf("Exec failed: %s\nError: %v", query, err)`. -/
def execMsg (query : String) (e : Err) : String :=
  "Exec failed: " ++ query ++ "\nError: " ++ e

/-- Bind arguments of the six `INSERT` statements, in program order. -/
def insertArgs (now : Time) : List (List Arg) :=
  [[.str "a_0", .str "A", .time (pairTime now 0)], [.str "b_0", .str "B", .time (pairTime now 0)],
   [.str "a_1", .str "A", .time (pairTime now 1)], [.str "b_1", .str "B", .time (pairTime now 1)],
   [.str "a_2", .str "A", .time (pairTime now 2)], [.str "b_2", .str "B", .time (pairTime now 2)]]

/-- Events of the loop of `runTest` over the rows of `s`. -/
def rowEvents (s : RowsScript) : List Event :=
  (s.scans.map (fun o => [Event.nextRow, .scan o.id o.cat o.err, .stdout (rowLine o.id o.cat)])).flatten
    ++ [.nextDone s.iterErr]

def queryBanner : String := "query: WHERE category='A' ORDER BY created_at DESC LIMIT 3\n"

/-- History when `duckdb.NewConnector` is called. -/
def trStart : List Event := [.stdout "connecting\n"]

/-- History when `INSTALL ducklake; LOAD ducklake;` is sent. -/
def trConnector : List Event :=
  trStart ++ [.newConnector none, .openDB, .stdout "loading ducklake extension\n"]

/-- History when the secret is created. -/
def trInstall : List Event :=
  trConnector ++ [.exec installSQL [] none, .stdout "configuring s3 secret\n"]

/-- History when the catalog is attached. -/
def trSecret : List Event :=
  trInstall ++ [.exec secretSQL [] none, .stdout "attaching ducklake\n"]

/-- History when the table is created. -/
def trAttach : List Event :=
  trSecret ++ [.exec attachSQL [] none, .stdout "creating table\n"]

/-- History after `j` successful inserts. -/
def trInserts (now : Time) (j : Nat) : List Event :=
  trAttach ++ [.exec createSQL [] none, .stdout "inserting 6 rows\n"]
    ++ ((insertArgs now).take j).map (fun a => Event.exec insertSQL a none)

/-- History when the pre-flush query is sent. -/
def trQuery1 (now : Time) : List Event :=
  trInserts now 6 ++ [.stdout queryBanner, .stdout "before flush:\n"]

/-- History when `flush` asks for its connection. -/
def trRows1 (now : Time) (s1 : RowsScript) : List Event :=
  trQuery1 now ++ [.query selectSQL none] ++ rowEvents s1 ++ [.rowsClose, .stdout "flushing to s3\n"]

/-- History when the post-flush query is sent. -/
def trQuery2 (now : Time) (s1 : RowsScript) : List Event :=
  trRows1 now s1 ++ [.conn none, .beginTx none, .txExec flushSQL none, .commit none, .connClose,
    .stdout queryBanner, .stdout "after flush:\n"]

/-- The runs of `main`: where it stops and what the world answered there. -/
inductive Path where
  | connectorFail (e : Err)
  | installFail (e : Err)
  | secretFail (e : Err)
  | attachFail (e : Err)
  | createFail (e : Err)
  | insertFail (j : Fin 6) (e : Err)
  | query1Fail (e : Err)
  | connFail (s1 : RowsScript) (e : Err)
  | beginFail (s1 : RowsScript) (e : Err)
  | callFail (s1 : RowsScript) (e : Err) (rb : Option Err)
  | commitFail (s1 : RowsScript) (e : Err)
  | query2Fail (s1 : RowsScript) (e : Err)
  | done (s1 s2 : RowsScript)

/-- Result of `main` along a path. -/
def Path.res (now : Time) : Path → Res Unit
  | .connectorFail e => .exit (trStart ++ [.newConnector (some e), .fatal e])
  | .installFail e =>
    .exit (trConnector ++ [.exec installSQL [] (some e), .fatal (execMsg installSQL e)])
  | .secretFail e =>
    .exit (trInstall ++ [.exec secretSQL [] (some e), .fatal (execMsg secretSQL e)])
  | .attachFail e =>
    .exit (trSecret ++ [.exec attachSQL [] (some e), .fatal (execMsg attachSQL e)])
  | .createFail e =>
    .exit (trAttach ++ [.exec createSQL [] (some e), .fatal (execMsg createSQL e)])
  | .insertFail j e =>
    .exit (trInserts now j ++
      [.exec insertSQL ((insertArgs now).getD j []) (some e), .fatal (execMsg insertSQL e)])
  | .query1Fail e => .exit (trQuery1 now ++ [.query selectSQL (some e), .fatal e])
  | .connFail s1 e =>
    .exit (trRows1 now s1 ++
      [.conn (some e), .fatal ("flush failed: " ++ ("failed to get connection: " ++ e))])
  | .beginFail s1 e =>
    .exit (trRows1 now s1 ++ [.conn none, .beginTx (some e), .connClose,
      .fatal ("flush failed: " ++ ("failed to begin transaction: " ++ e))])
  | .callFail s1 e rb =>
    .exit (trRows1 now s1 ++ [.conn none, .beginTx none, .txExec flushSQL (some e), .rollback rb,
      .connClose, .fatal ("flush failed: " ++ e)])
  | .commitFail s1 e =>
    .exit (trRows1 now s1 ++ [.conn none, .beginTx none, .txExec flushSQL none, .commit (some e),
      .connClose, .fatal ("flush failed: " ++ e)])
  | .query2Fail s1 e => .exit (trQuery2 now s1 ++ [.query selectSQL (some e), .fatal e])
  | .done s1 s2 =>
    .ret () (trQuery2 now s1 ++ [.query selectSQL none] ++ rowEvents s2
      ++ [.rowsClose, .connectorClose, .dbClose])

/-- The answers the world gave to the two queries along a path. -/
def Path.Agrees (env : Env) : Path → Prop
  | .connFail s1 _ | .beginFail s1 _ | .callFail s1 _ _ | .commitFail s1 _ | .query2Fail s1 _ =>
    env.query (trQuery1 env.now) selectSQL = .ok s1
  | .done s1 s2 =>
    env.query (trQuery1 env.now) selectSQL = .ok s1 ∧
    env.query (trQuery2 env.now s1) selectSQL = .ok s2
  | _ => True

/-- The fixed statement sequence of a complete run: extension, secret, attach,
create table, six inserts, the query, the flush call in its transaction, the
query again. -/
def fixedSequence (now : Time) : List Stmt :=
  [.exec installSQL [], .exec secretSQL [], .exec attachSQL [], .exec createSQL []]
    ++ (insertArgs now).map (Stmt.exec insertSQL)
    ++ [.query selectSQL, .begin, .txExec flushSQL, .commit, .query selectSQL]

/-- Rows of the table once the six inserts have succeeded. -/
def sixRows (now : Time) : List Row :=
  [⟨"a_0", "A", pairTime now 0⟩, ⟨"b_0", "B", pairTime now 0⟩,
   ⟨"a_1", "A", pairTime now 1⟩, ⟨"b_1", "B", pairTime now 1⟩,
   ⟨"a_2", "A", pairTime now 2⟩, ⟨"b_2", "B", pairTime now 2⟩]

/-- A failed call of `duckdb.NewConnector` or `db.Exec`: a setup, create or
insert step that failed. -/
def Event.failedExec : Event → Bool
  | .newConnector (some _) => true
  | .exec _ _ (some _) => true
  | _ => false

/-- A failed call made by `flush`. -/
def Event.flushFailed : Event → Bool
  | .conn (some _) => true
  | .beginTx (some _) => true
  | .txExec _ (some _) => true
  | .commit (some _) => true
  | _ => false

/-- A call that ends a transaction: `tx.Commit()` or `tx.Rollback()`. -/
def Event.endsTx : Event → Bool
  | .commit _ => true
  | .rollback _ => true
  | _ => false

/-- Texts of the queries sent through `db.Query`, in order. -/
def queriesOf (tr : List Event) : List String :=
  tr.filterMap (fun ev => match ev with
    | .query q _ => some q
    | _ => none)

/-- The `(id, category)` contents left by each `rows.Scan`, in order. -/
def scannedOf (tr : List Event) : List (String × String) :=
  tr.filterMap (fun ev => match ev with
    | .scan id cat _ => some (id, cat)
    | _ => none)

/-! ## Sample worlds -/

/-- A world in which every call succeeds and queries are answered by `q`. -/
def worldOk (now : Time) (q : List Event → String → Except Err RowsScript) : Env where
  newConnector := none
  now := now
  exec := fun _ _ _ => none
  query := q
  conn := fun _ => none
  beginTx := fun _ => none
  txExec := fun _ _ => none
  rollback := fun _ => none
  commit := fun _ => none

/-- A sample instant. -/
def sampleNow : Time := ⟨1700000000, 123456789⟩

/-- An engine that implements the query text: filter, sort, limit. -/
def engineCorrect (tr : List Event) (_ : String) : Except Err RowsScript :=
  .ok (scriptOf (selectLimit3
    (((insertedRows tr).filter (fun r => r.category = "A")).insertionSort descOrder)))

/-- An engine with the defect: the filter is skipped. -/
def engineNoFilter (tr : List Event) (_ : String) : Except Err RowsScript :=
  .ok (scriptOf (selectLimit3 ((insertedRows tr).insertionSort descOrder)))

/-- A result set with one row of each category. -/
def mixedRows : RowsScript := ⟨[⟨"a_0", "A", none⟩, ⟨"b_0", "B", none⟩], none⟩

/-- Rows whose second `Scan` fails on the category column (leaving `cat` empty)
and whose iteration then stops with an error. -/
def brokenRows : RowsScript :=
  ⟨[⟨"a_0", "A", none⟩,
    ⟨"a_1", "", some "sql: Scan error on column index 1: converting NULL to string is unsupported"⟩],
   some "driver: bad connection"⟩

/-- A world in which every call succeeds and both queries deliver `brokenRows`. -/
def worldBrokenRows : Env := worldOk sampleNow (fun _ _ => .ok brokenRows)

/-- A world in which only the `SELECT` fails. -/
def worldQueryFails : Env := worldOk sampleNow (fun _ _ => .error "boom")

/-- A world in which only the flush procedure call fails. -/
def worldFlushFails : Env :=
  { worldOk sampleNow engineCorrect with txExec := fun _ _ => some "boom" }

/-- A world in which the first statement fails. -/
def worldInstallFails : Env :=
  { worldOk sampleNow engineCorrect with exec := fun _ _ _ => some "boom" }

/-- A commit has happened: the inlined data has been flushed. -/
def Event.isCommit : Event → Bool
  | .commit none => true
  | _ => false

/-- The defect of the header of `main.go`: while the data is inlined (no flush
committed yet) the filter is skipped; after the flush the query is answered
correctly. -/
def engineInlinedDefect (tr : List Event) (q : String) : Except Err RowsScript :=
  if tr.any Event.isCommit then engineCorrect tr q else engineNoFilter tr q

/-- What follows the pre-flush query in the run with `engineInlinedDefect`. -/
def samplePost : List Event :=
  (main (worldOk sampleNow engineInlinedDefect) []).trace.drop 21

/-- The answer of `engineInlinedDefect` to the pre-flush query. -/
def sampleResult : List (String × String) :=
  selectLimit3 ((insertedRows (trQuery1 sampleNow)).insertionSort descOrder)

/-- A failed step, a failing `rows.Scan` or a failing row iteration counting as
a failing query step. -/
def Event.failedCall : Event → Bool
  | .scan _ _ (some _) => true
  | .nextDone (some _) => true
  | ev => ev.failedStep

/-- Everything that happened after the first failed call in the sense of
`Event.failedCall` (empty when there is none). -/
def afterFirstFailedCall (tr : List Event) : List Event :=
  (tr.dropWhile (fun ev => !ev.failedCall)).tail

/-- One row is delivered, then row iteration stops with an error. -/
def iterationErrorRows : RowsScript :=
  ⟨[⟨"a_0", "A", none⟩], some "driver: bad connection"⟩

/-- A world in which every call succeeds except that row iteration of each
query stops with an error. -/
def worldIterationError : Env := worldOk sampleNow (fun _ _ => .ok iterationErrorRows)

/-- The run `r` of `main` follows one of the paths, with the answers of `env`. -/
def Reach (env : Env) (r : Res Unit) : Prop := ∃ p : Path, r = p.res env.now ∧ p.Agrees env

/-! ## Stepping through the program -/

theorem bind_ret {α β : Type} {m : Prog α} {f : α → Prog β} {tr tr1 : List Event} {a : α}
    (h : m tr = .ret a tr1) : (m >>= f) tr = f a tr1 := by
  show Prog.bind m f tr = _
  simp only [Prog.bind, h]

theorem bind_exit {α β : Type} {m : Prog α} {f : α → Prog β} {tr tr1 : List Event}
    (h : m tr = .exit tr1) : (m >>= f) tr = .exit tr1 := by
  show Prog.bind m f tr = _
  simp only [Prog.bind, h]

theorem println_eval (s : String) (tr : List Event) :
    println s tr = .ret () (tr ++ [.stdout (s ++ "\n")]) := rfl

theorem emit_eval (e : Event) (tr : List Event) : emit e tr = .ret () (tr ++ [e]) := rfl

theorem pure_eval {α : Type} (a : α) (tr : List Event) : (pure a : Prog α) tr = .ret a tr := rfl

theorem call_eval {ρ : Type} (answer : List Event → ρ) (ev : ρ → Event) (tr : List Event) :
    call answer ev tr = .ret (answer tr) (tr ++ [ev (answer tr)]) := rfl

theorem mustExec_cases (env : Env) (q : String) (args : List Arg) (tr : List Event) :
    mustExec env q args tr = .ret () (tr ++ [.exec q args none]) ∨
    ∃ e, mustExec env q args tr = .exit (tr ++ [.exec q args (some e), .fatal (execMsg q e)]) := by
  unfold mustExec
  rw [bind_ret (call_eval _ _ _)]
  cases env.exec tr q args with
  | none => exact Or.inl rfl
  | some e => exact Or.inr ⟨e, by simp [logFatal, execMsg]⟩

theorem bind_assoc_apply {α β γ : Type} (m : Prog α) (f : α → Prog β) (g : β → Prog γ)
    (tr : List Event) : ((m >>= f) >>= g) tr = (m >>= fun a => f a >>= g) tr := by
  show Prog.bind (Prog.bind m f) g tr = Prog.bind m (fun a => Prog.bind (f a) g) tr
  simp only [Prog.bind]
  cases m tr <;> rfl

theorem bind_assoc_prog {α β γ : Type} (m : Prog α) (f : α → Prog β) (g : β → Prog γ) :
    ((m >>= f) >>= g) = (m >>= fun a => f a >>= g) := by
  funext tr; exact bind_assoc_apply m f g tr

theorem forRange_three_bind {β : Type} (f : Nat → Prog Unit) (g : Unit → Prog β)
    (tr : List Event) :
    (forRange 3 f >>= g) tr = (f 0 >>= fun _ => f 1 >>= fun _ => f 2 >>= g) tr := by
  have h : forRange 3 f = ((f 0 >>= fun _ => f 1) >>= fun _ => f 2) := rfl
  rw [h, bind_assoc_apply, bind_assoc_apply]

theorem step_ret {α β : Type} (Q : Res β → Prop) {m : Prog α} {f : α → Prog β}
    {tr tr1 : List Event} {a : α} (h : m tr = .ret a tr1) (hq : Q (f a tr1)) :
    Q ((m >>= f) tr) := by
  rw [bind_ret h]; exact hq

theorem mustExec_rule {β : Type} (Q : Res β → Prop) (env : Env) (q : String) (args : List Arg)
    (f : Unit → Prog β) (tr : List Event)
    (hok : Q (f () (tr ++ [.exec q args none])))
    (herr : ∀ e, Q (.exit (tr ++ [.exec q args (some e), .fatal (execMsg q e)]))) :
    Q ((mustExec env q args >>= f) tr) := by
  rcases mustExec_cases env q args tr with h | ⟨e, h⟩
  · rw [bind_ret h]; exact hok
  · rw [bind_exit h]; exact herr e

theorem rowsLoop_eval (ie : Option Err) (scans : List ScanOutcome) (tr : List Event) :
    rowsLoop ie scans tr = .ret () (tr ++ rowEvents ⟨scans, ie⟩) := by
  induction scans generalizing tr with
  | nil => rfl
  | cons s rest ih =>
    unfold rowsLoop
    rw [bind_ret (emit_eval _ _), bind_ret (emit_eval _ _), bind_ret (emit_eval _ _), ih]
    simp [rowEvents]

theorem runTest_cases (env : Env) (tr : List Event) :
    (∃ e, env.query tr selectSQL = .error e ∧
      runTest env tr = .exit (tr ++ [.query selectSQL (some e), .fatal e])) ∨
    (∃ s, env.query tr selectSQL = .ok s ∧
      runTest env tr = .ret () (tr ++ [.query selectSQL none] ++ rowEvents s ++ [.rowsClose])) := by
  unfold runTest
  rw [bind_ret (call_eval _ _ _)]
  cases h : env.query tr selectSQL with
  | error e => exact Or.inl ⟨e, rfl, by simp [logFatal, queryErr]⟩
  | ok s =>
    refine Or.inr ⟨s, rfl, ?_⟩
    show (rowsLoop s.iterErr s.scans >>= fun _ => emit .rowsClose) _ = _
    rw [bind_ret (rowsLoop_eval _ _ _), emit_eval]
    simp [queryErr]

theorem flush_cases (env : Env) (tr : List Event) :
    (∃ e, flush env tr = .ret (some ("failed to get connection: " ++ e)) (tr ++ [.conn (some e)])) ∨
    (∃ e, flush env tr = .ret (some ("failed to begin transaction: " ++ e))
      (tr ++ [.conn none, .beginTx (some e), .connClose])) ∨
    (∃ e rb, flush env tr = .ret (some e)
      (tr ++ [.conn none, .beginTx none, .txExec flushSQL (some e), .rollback rb, .connClose])) ∨
    (∃ c, flush env tr = .ret c
      (tr ++ [.conn none, .beginTx none, .txExec flushSQL none, .commit c, .connClose])) := by
  unfold flush
  rw [bind_ret (call_eval _ _ _)]
  cases env.conn tr with
  | some e => exact Or.inl ⟨e, rfl⟩
  | none =>
    refine Or.inr ?_
    dsimp only
    rw [bind_assoc_apply, bind_ret (call_eval _ _ _)]
    cases env.beginTx (tr ++ [Event.conn none]) with
    | some e =>
      refine Or.inl ⟨e, ?_⟩
      dsimp only
      rw [bind_ret (pure_eval _ _), bind_ret (emit_eval _ _), pure_eval]
      simp
    | none =>
      refine Or.inr ?_
      dsimp only
      rw [bind_assoc_apply, bind_ret (call_eval _ _ _)]
      cases env.txExec (tr ++ [Event.conn none] ++ [Event.beginTx none]) flushSQL with
      | some e =>
        refine Or.inl ⟨e, env.rollback (tr ++ [Event.conn none] ++ [Event.beginTx none] ++ [Event.txExec flushSQL (some e)]), ?_⟩
        dsimp only
        rw [bind_assoc_apply, bind_ret (call_eval _ _ _), bind_ret (pure_eval _ _), bind_ret (emit_eval _ _), pure_eval]
        simp
      | none =>
        refine Or.inr ⟨env.commit (tr ++ [Event.conn none] ++ [Event.beginTx none] ++ [Event.txExec flushSQL none]), ?_⟩
        dsimp only
        rw [bind_ret (call_eval _ _ _), bind_ret (emit_eval _ _), pure_eval]
        simp

theorem runTest_rule {β : Type} (Q : Res β → Prop) (env : Env) (f : Unit → Prog β)
    (tr : List Event)
    (herr : ∀ e, Q (.exit (tr ++ [.query selectSQL (some e), .fatal e])))
    (hok : ∀ s, env.query tr selectSQL = .ok s →
      Q (f () (tr ++ [.query selectSQL none] ++ rowEvents s ++ [.rowsClose]))) :
    Q ((runTest env >>= f) tr) := by
  rcases runTest_cases env tr with ⟨e, -, h⟩ | ⟨s, hs, h⟩
  · rw [bind_exit h]; exact herr e
  · rw [bind_ret h]; exact hok s hs

theorem flush_rule {β : Type} (Q : Res β → Prop) (env : Env) (f : Option Err → Prog β)
    (tr : List Event)
    (h1 : ∀ e, Q (f (some ("failed to get connection: " ++ e)) (tr ++ [.conn (some e)])))
    (h2 : ∀ e, Q (f (some ("failed to begin transaction: " ++ e))
      (tr ++ [.conn none, .beginTx (some e), .connClose])))
    (h3 : ∀ e rb, Q (f (some e)
      (tr ++ [.conn none, .beginTx none, .txExec flushSQL (some e), .rollback rb, .connClose])))
    (h4 : ∀ c, Q (f c
      (tr ++ [.conn none, .beginTx none, .txExec flushSQL none, .commit c, .connClose]))) :
    Q ((flush env >>= f) tr) := by
  rcases flush_cases env tr with ⟨e, h⟩ | ⟨e, h⟩ | ⟨e, rb, h⟩ | ⟨c, h⟩
  · rw [bind_ret h]; exact h1 e
  · rw [bind_ret h]; exact h2 e
  · rw [bind_ret h]; exact h3 e rb
  · rw [bind_ret h]; exact h4 c

theorem logFatal_bind {α β : Type} (msg : String) (f : α → Prog β) (tr : List Event) :
    ((logFatal msg : Prog α) >>= f) tr = .exit (tr ++ [.fatal msg]) := rfl

theorem main_path (env : Env) : Reach env (main env []) := by
  unfold main
  refine step_ret _ (println_eval _ _) ?_
  unfold connect
  rw [bind_assoc_apply]
  refine step_ret _ (call_eval _ _ _) ?_
  cases env.newConnector with
  | some e => exact ⟨.connectorFail e, rfl, trivial⟩
  | none =>
    dsimp only
    simp only [bind_assoc_prog]
    refine step_ret _ (pure_eval _ _) ?_
    refine step_ret _ (emit_eval _ _) ?_
    refine step_ret _ (println_eval _ _) ?_
    refine mustExec_rule _ _ _ _ _ _ ?_ (fun e => ⟨.installFail e, rfl, trivial⟩)
    refine step_ret _ (println_eval _ _) ?_
    refine mustExec_rule _ _ _ _ _ _ ?_ (fun e => ⟨.secretFail e, rfl, trivial⟩)
    refine step_ret _ (println_eval _ _) ?_
    refine mustExec_rule _ _ _ _ _ _ ?_ (fun e => ⟨.attachFail e, rfl, trivial⟩)
    refine step_ret _ (println_eval _ _) ?_
    refine mustExec_rule _ _ _ _ _ _ ?_ (fun e => ⟨.createFail e, rfl, trivial⟩)
    refine step_ret _ (println_eval _ _) ?_
    rw [forRange_three_bind]
    simp only [bind_assoc_prog]
    refine mustExec_rule _ _ _ _ _ _ ?_ (fun e => ⟨.insertFail 0 e, rfl, trivial⟩)
    refine mustExec_rule _ _ _ _ _ _ ?_ (fun e => ⟨.insertFail 1 e, rfl, trivial⟩)
    refine mustExec_rule _ _ _ _ _ _ ?_ (fun e => ⟨.insertFail 2 e, rfl, trivial⟩)
    refine mustExec_rule _ _ _ _ _ _ ?_ (fun e => ⟨.insertFail 3 e, rfl, trivial⟩)
    refine mustExec_rule _ _ _ _ _ _ ?_ (fun e => ⟨.insertFail 4 e, rfl, trivial⟩)
    refine mustExec_rule _ _ _ _ _ _ ?_ (fun e => ⟨.insertFail 5 e, rfl, trivial⟩)
    refine step_ret _ (println_eval _ _) ?_
    refine step_ret _ (println_eval _ _) ?_
    change Reach env ((runTest env >>= _) (trQuery1 env.now))
    refine runTest_rule _ _ _ _ (fun e => ⟨.query1Fail e, rfl, trivial⟩) ?_
    intro s1 h1
    refine step_ret _ (println_eval _ _) ?_
    have htr : trQuery1 env.now ++ [Event.query selectSQL none] ++ rowEvents s1
        ++ [Event.rowsClose] ++ [.stdout ("flushing to s3" ++ "\n")] = trRows1 env.now s1 := by
      simp [trRows1]
    rw [htr]
    refine flush_rule _ _ _ _ ?_ ?_ ?_ ?_
    · intro e
      exact ⟨.connFail s1 e, by simp [Path.res, logFatal_bind], h1⟩
    · intro e
      exact ⟨.beginFail s1 e, by simp [Path.res, logFatal_bind], h1⟩
    · intro e rb
      exact ⟨.callFail s1 e rb, by simp [Path.res, logFatal_bind], h1⟩
    · intro c
      cases c with
      | some e => exact ⟨.commitFail s1 e, by simp [Path.res, logFatal_bind], h1⟩
      | none =>
        dsimp only
        refine step_ret _ (pure_eval _ _) ?_
        refine step_ret _ (println_eval _ _) ?_
        refine step_ret _ (println_eval _ _) ?_
        have htr2 : trRows1 env.now s1 ++ [.conn none, .beginTx none, .txExec flushSQL none,
            .commit none, .connClose] ++ [.stdout ("query: WHERE category='A' ORDER BY created_at DESC LIMIT 3" ++ "\n")]
            ++ [.stdout ("after flush:" ++ "\n")] = trQuery2 env.now s1 := by
          simp [trQuery2, queryBanner]
        rw [htr2]
        refine runTest_rule _ _ _ _ (fun e => ⟨.query2Fail s1 e, rfl, h1⟩) ?_
        intro s2 h2
        refine step_ret _ (emit_eval _ _) ?_
        rw [emit_eval]
        exact ⟨.done s1 s2, by simp [Path.res], h1, h2⟩

/-! ## Observations along the paths -/

theorem filterMap_rowEvents {β : Type} (f : Event → Option β) (h1 : f .nextRow = none)
    (h2 : ∀ i c e, f (.scan i c e) = none) (h3 : ∀ e, f (.nextDone e) = none) (s : RowsScript) :
    (rowEvents s).filterMap f = s.scans.filterMap (fun o => f (.stdout (rowLine o.id o.cat))) := by
  obtain ⟨scans, ie⟩ := s
  induction scans with
  | nil => simp [rowEvents, h3]
  | cons o rest ih =>
    simp only [rowEvents, List.map_cons, List.flatten_cons, List.append_assoc,
      List.filterMap_append] at ih ⊢
    rw [ih]
    simp [List.filterMap_cons, h1, h2]
    cases f (Event.stdout (rowLine o.id o.cat)) <;> simp

theorem stdoutOf_rowEvents (s : RowsScript) :
    stdoutOf (rowEvents s) = s.scans.map (fun o => rowLine o.id o.cat) := by
  unfold stdoutOf
  rw [filterMap_rowEvents _ rfl (fun _ _ _ => rfl) (fun _ => rfl)]
  exact congrFun (List.filterMap_eq_map (fun o : ScanOutcome => rowLine o.id o.cat)) s.scans

theorem stmtsOf_rowEvents (s : RowsScript) : List.filterMap stmtOf (rowEvents s) = [] := by
  rw [filterMap_rowEvents _ rfl (fun _ _ _ => rfl) (fun _ => rfl)]
  simp [stmtOf]

theorem insertedRows_rowEvents (s : RowsScript) : insertedRows (rowEvents s) = [] := by
  unfold insertedRows
  rw [filterMap_rowEvents _ rfl (fun _ _ _ => rfl) (fun _ => rfl)]
  simp

theorem insertAttempts_rowEvents (s : RowsScript) : insertAttempts (rowEvents s) = [] := by
  unfold insertAttempts
  rw [filterMap_rowEvents _ rfl (fun _ _ _ => rfl) (fun _ => rfl)]
  simp

theorem fatalsOf_rowEvents (s : RowsScript) : fatalsOf (rowEvents s) = [] := by
  unfold fatalsOf
  rw [filterMap_rowEvents _ rfl (fun _ _ _ => rfl) (fun _ => rfl)]
  simp

theorem queriesOf_rowEvents (s : RowsScript) : queriesOf (rowEvents s) = [] := by
  unfold queriesOf
  rw [filterMap_rowEvents _ rfl (fun _ _ _ => rfl) (fun _ => rfl)]
  simp

theorem failedStep_rowEvents (s : RowsScript) : ∀ ev ∈ rowEvents s, ev.failedStep = false := by
  intro ev hev
  simp only [rowEvents, List.mem_append, List.mem_flatten, List.mem_map, List.mem_singleton] at hev
  rcases hev with ⟨l, ⟨o, -, rfl⟩, hl⟩ | rfl
  · simp only [List.mem_cons, List.mem_singleton, List.not_mem_nil, or_false] at hl
    rcases hl with rfl | rfl | rfl <;> rfl
  · rfl

theorem flushFailed_rowEvents (s : RowsScript) : ∀ ev ∈ rowEvents s, ev.flushFailed = false := by
  intro ev hev
  simp only [rowEvents, List.mem_append, List.mem_flatten, List.mem_map, List.mem_singleton] at hev
  rcases hev with ⟨l, ⟨o, -, rfl⟩, hl⟩ | rfl
  · simp only [List.mem_cons, List.mem_singleton, List.not_mem_nil, or_false] at hl
    rcases hl with rfl | rfl | rfl <;> rfl
  · rfl

/-! ## Timestamps and the meaning of the query on the six rows -/

theorem pairTime_eq (now : Time) (hv : now.Valid) (i : Nat) (hi : i < 3) :
    pairTime now i = ⟨now.sec - 60 * i, now.nsec⟩ := by
  obtain ⟨h0, h1⟩ := hv
  interval_cases i
  · have hd : wrapInt64 (wrapInt64 (-((0 : Nat) : Int)) * Minute) = 0 := by decide
    simp only [pairTime, hd, Time.Add]
    have e1 : Int.tdiv 0 1000000000 = 0 := by decide
    have e2 : Int.tmod 0 1000000000 = 0 := by decide
    rw [e1, e2]
    rw [if_neg (by omega), if_neg (by omega)]
    simp
  · have hd : wrapInt64 (wrapInt64 (-((1 : Nat) : Int)) * Minute) = -60000000000 := by decide
    simp only [pairTime, hd, Time.Add]
    have e1 : Int.tdiv (-60000000000) 1000000000 = -60 := by decide
    have e2 : Int.tmod (-60000000000) 1000000000 = 0 := by decide
    rw [e1, e2]
    rw [if_neg (by omega), if_neg (by omega)]
    simp; omega
  · have hd : wrapInt64 (wrapInt64 (-((2 : Nat) : Int)) * Minute) = -120000000000 := by decide
    simp only [pairTime, hd, Time.Add]
    have e1 : Int.tdiv (-120000000000) 1000000000 = -120 := by decide
    have e2 : Int.tmod (-120000000000) 1000000000 = 0 := by decide
    rw [e1, e2]
    rw [if_neg (by omega), if_neg (by omega)]
    simp; omega

theorem top_of_sixRows (now : Time) (hv : now.Valid) (r : Row) (hr : r ∈ sixRows now)
    (hd : descOrder r ⟨"b_0", "B", pairTime now 0⟩) :
    r = ⟨"a_0", "A", pairTime now 0⟩ ∨ r = ⟨"b_0", "B", pairTime now 0⟩ := by
  obtain ⟨h0, h1⟩ := hv
  rw [sixRows, pairTime_eq now ⟨h0, h1⟩ 0 (by omega), pairTime_eq now ⟨h0, h1⟩ 1 (by omega),
    pairTime_eq now ⟨h0, h1⟩ 2 (by omega)] at hr
  rw [pairTime_eq now ⟨h0, h1⟩ 0 (by omega)] at hd ⊢
  simp only [List.mem_cons, List.mem_singleton, List.not_mem_nil, or_false] at hr
  simp only [descOrder, Time.After] at hd
  rcases hr with rfl | rfl | rfl | rfl | rfl | rfl
  · exact Or.inl rfl
  · exact Or.inr rfl
  · exfalso; simp at hd
  · exfalso; simp at hd
  · exfalso; simp at hd
  · exfalso; simp at hd

theorem orderLimitNoFilter_sixRows (now : Time) (hv : now.Valid) (result : List (String × String))
    (h : OrderLimitNoFilter (sixRows now) result) :
    result.length = 3 ∧ ("b_0", "B") ∈ result := by
  obtain ⟨sorted, hperm, hsort, rfl⟩ := h
  have hlen : sorted.length = 6 := hperm.length_eq
  have hnd : sorted.Nodup := hperm.nodup_iff.mpr (by
    rw [sixRows]; simp)
  have hb : (⟨"b_0", "B", pairTime now 0⟩ : Row) ∈ sorted :=
    hperm.mem_iff.mpr (by simp [sixRows])
  match sorted, hperm, hsort, hlen, hnd, hb with
  | x :: y :: z :: rest, hperm, hsort, _, hnd, hb =>
    refine ⟨by simp [selectLimit3], ?_⟩
    by_contra hnot
    have hx0 : x ≠ ⟨"b_0", "B", pairTime now 0⟩ := by
      rintro rfl; exact hnot (by simp [selectLimit3])
    have hy0 : y ≠ ⟨"b_0", "B", pairTime now 0⟩ := by
      rintro rfl; exact hnot (by simp [selectLimit3])
    have hz0 : z ≠ ⟨"b_0", "B", pairTime now 0⟩ := by
      rintro rfl; exact hnot (by simp [selectLimit3])
    have hrest : (⟨"b_0", "B", pairTime now 0⟩ : Row) ∈ rest := by
      simp only [List.mem_cons] at hb
      rcases hb with h | h | h | h
      · exact absurd h.symm hx0
      · exact absurd h.symm hy0
      · exact absurd h.symm hz0
      · exact h
    rw [List.pairwise_cons, List.pairwise_cons] at hsort
    have hxb := hsort.1 _ (List.mem_cons_of_mem _ (List.mem_cons_of_mem _ hrest))
    have hyb := hsort.2.1 _ (List.mem_cons_of_mem _ hrest)
    have hxm : x ∈ sixRows now := hperm.mem_iff.mp (List.mem_cons_self _ _)
    have hym : y ∈ sixRows now :=
      hperm.mem_iff.mp (List.mem_cons_of_mem _ (List.mem_cons_self _ _))
    have hx := (top_of_sixRows now hv x hxm hxb).resolve_right hx0
    have hy := (top_of_sixRows now hv y hym hyb).resolve_right hy0
    rw [List.nodup_cons] at hnd
    exact hnd.1 (by rw [hx, hy]; exact List.mem_cons_self _ _)

/-! ## Claims -/

theorem insertedRows_trQuery1 (now : Time) : insertedRows (trQuery1 now) = sixRows now := by
  simp [trQuery1, trInserts, trAttach, trSecret, trInstall, trConnector, trStart, insertArgs,
    insertedRows, sixRows]

theorem insertedRows_trQuery2 (now : Time) (s1 : RowsScript) :
    insertedRows (trQuery2 now s1) = sixRows now := by
  have h1 := insertedRows_trQuery1 now
  have h2 := insertedRows_rowEvents s1
  simp only [insertedRows] at h1 h2
  simp [trQuery2, trRows1, insertedRows, h1, h2]

theorem descOrder_total (r s : Row) : descOrder r s ∨ descOrder s r := by
  simp only [descOrder, Time.After]
  omega

theorem descOrder_trans (r s t : Row) (h1 : descOrder r s) (h2 : descOrder s t) :
    descOrder r t := by
  simp only [descOrder, Time.After] at *
  omega

theorem pairwise_insertionSort_descOrder (l : List Row) :
    (l.insertionSort descOrder).Pairwise descOrder :=
  @List.sorted_insertionSort Row descOrder _ ⟨descOrder_total⟩ ⟨descOrder_trans⟩ l

theorem split_at_first {x : Event} (A R a b : List Event) (hA : x ∉ A)
    (h : A ++ x :: R = a ++ x :: b) :
    (a = A ∧ b = R) ∨ ∃ a1, a = A ++ x :: a1 ∧ R = a1 ++ x :: b := by
  rcases List.append_eq_append_iff.mp h with ⟨c, hc, hd⟩ | ⟨c, hc, hd⟩
  · cases c with
    | nil =>
      simp only [List.nil_append, List.cons.injEq, true_and] at hd
      left
      exact ⟨by simpa using hc, hd.symm⟩
    | cons y c =>
      simp only [List.cons_append, List.cons.injEq] at hd
      right
      exact ⟨c, by rw [hc, hd.1], hd.2⟩
  · cases c with
    | nil =>
      simp only [List.nil_append, List.cons.injEq, true_and] at hd
      left
      exact ⟨by simpa using hc.symm, hd⟩
    | cons y c =>
      exfalso
      simp only [List.cons_append, List.cons.injEq] at hd
      exact hA (by rw [hc, ← hd.1]; simp)

theorem no_split {x : Event} (A a b : List Event) (hA : x ∉ A) (h : A = a ++ x :: b) :
    False := hA (by rw [h]; simp)

theorem query_not_mem_rowEvents (s : RowsScript) (q : String) (r : Option Err) :
    Event.query q r ∉ rowEvents s := by
  intro hev
  simp only [rowEvents, List.mem_append, List.mem_flatten, List.mem_map, List.mem_singleton] at hev
  rcases hev with ⟨l, ⟨o, -, rfl⟩, hl⟩ | h
  · simp at hl
  · cases h

theorem query_not_mem_trQuery1 (now : Time) : Event.query selectSQL none ∉ trQuery1 now := by
  simp [trQuery1, trInserts, trAttach, trSecret, trInstall, trConnector, trStart, insertArgs]

theorem scannedOf_rowEvents_scriptOf (r : List (String × String)) :
    scannedOf (rowEvents (scriptOf r)) = r := by
  induction r with
  | nil => rfl
  | cons a r ih =>
    simp only [scannedOf, rowEvents, scriptOf, List.map_cons, List.flatten_cons,
      List.append_assoc, List.filterMap_append] at ih ⊢
    rw [ih]
    rfl

/-- What follows a query answered, over the six rows, by a result that ignores
the filter. -/
theorem bug_after_query (env : Env) (hv : env.now.Valid) (pre post rest : List Event)
    (s : RowsScript) (result : List (String × String))
    (hrows : insertedRows pre = sixRows env.now)
    (hs : env.query pre selectSQL = .ok s)
    (hpost : post = rowEvents s ++ rest)
    (hans : env.query pre selectSQL = .ok (scriptOf result))
    (hres : OrderLimitNoFilter (insertedRows pre) result) :
    result.length = 3 ∧ ("b_0", "B") ∈ result ∧
    (scannedOf post).take 3 = result ∧
    (stdoutOf post).take 3 = result.map (fun r => rowLine r.1 r.2) ∧
    "  b_0 B [BUG]\n" ∈ (stdoutOf post).take 3 := by
  rw [hrows] at hres
  obtain ⟨hlen, hmem⟩ := orderLimitNoFilter_sixRows _ hv _ hres
  rw [hs] at hans
  injection hans with hans
  subst hans
  subst hpost
  have hsc : (scannedOf (rowEvents (scriptOf result) ++ rest)).take 3 = result := by
    have h1 := scannedOf_rowEvents_scriptOf result
    simp only [scannedOf] at h1
    simp only [scannedOf, List.filterMap_append, h1]
    exact List.take_left' hlen
  have hso : (stdoutOf (rowEvents (scriptOf result) ++ rest)).take 3
      = result.map (fun r => rowLine r.1 r.2) := by
    have h1 := stdoutOf_rowEvents (scriptOf result)
    simp only [stdoutOf] at h1
    simp only [stdoutOf, List.filterMap_append, h1]
    have h2 : List.map (fun o => rowLine o.id o.cat) (scriptOf result).scans
        = result.map (fun r => rowLine r.1 r.2) := by
      simp [scriptOf]
    rw [h2]
    exact List.take_left' (by simp [hlen])
  refine ⟨hlen, hmem, hsc, hso, ?_⟩
  rw [hso]
  exact List.mem_map.mpr ⟨("b_0", "B"), hmem, by decide⟩

/-- Where the successful queries stand in a run of `main`. -/
theorem main_queries (env : Env) :
    Event.query selectSQL none ∉ (main env []).trace ∨
    (∃ s1 rest, env.query (trQuery1 env.now) selectSQL = .ok s1 ∧
      (main env []).trace =
        trQuery1 env.now ++ Event.query selectSQL none :: (rowEvents s1 ++ rest) ∧
      Event.query selectSQL none ∉ rest) ∨
    (∃ s1 s2 mid rest, env.query (trQuery1 env.now) selectSQL = .ok s1 ∧
      env.query (trQuery2 env.now s1) selectSQL = .ok s2 ∧
      trQuery2 env.now s1 =
        trQuery1 env.now ++ Event.query selectSQL none :: (rowEvents s1 ++ mid) ∧
      (main env []).trace =
        trQuery2 env.now s1 ++ Event.query selectSQL none :: (rowEvents s2 ++ rest) ∧
      Event.query selectSQL none ∉ mid ∧
      Event.query selectSQL none ∉ rest) := by
  obtain ⟨p, hp, hag⟩ := main_path env
  rw [hp]
  have hq1 := query_not_mem_trQuery1 env.now
  cases p with
  | connectorFail e => left; simp [Path.res, Res.trace, trStart]
  | installFail e => left; simp [Path.res, Res.trace, trConnector, trStart]
  | secretFail e => left; simp [Path.res, Res.trace, trInstall, trConnector, trStart]
  | attachFail e =>
    left; simp [Path.res, Res.trace, trSecret, trInstall, trConnector, trStart]
  | createFail e =>
    left; simp [Path.res, Res.trace, trAttach, trSecret, trInstall, trConnector, trStart]
  | insertFail j e =>
    left
    fin_cases j <;>
    simp [Path.res, Res.trace, trInserts, insertArgs, trAttach, trSecret, trInstall,
      trConnector, trStart]
  | query1Fail e =>
    left
    simp only [Path.res, Res.trace, List.mem_append, not_or]
    exact ⟨hq1, by simp⟩
  | connFail s1 e =>
    right; left
    exact ⟨s1, [.rowsClose, .stdout "flushing to s3\n", .conn (some e),
        .fatal ("flush failed: " ++ ("failed to get connection: " ++ e))], hag,
      by simp [Path.res, Res.trace, trRows1], by simp⟩
  | beginFail s1 e =>
    right; left
    exact ⟨s1, [.rowsClose, .stdout "flushing to s3\n", .conn none, .beginTx (some e),
        .connClose, .fatal ("flush failed: " ++ ("failed to begin transaction: " ++ e))], hag,
      by simp [Path.res, Res.trace, trRows1], by simp⟩
  | callFail s1 e rb =>
    right; left
    exact ⟨s1, [.rowsClose, .stdout "flushing to s3\n", .conn none, .beginTx none,
        .txExec flushSQL (some e), .rollback rb, .connClose, .fatal ("flush failed: " ++ e)],
      hag, by simp [Path.res, Res.trace, trRows1], by simp⟩
  | commitFail s1 e =>
    right; left
    exact ⟨s1, [.rowsClose, .stdout "flushing to s3\n", .conn none, .beginTx none,
        .txExec flushSQL none, .commit (some e), .connClose, .fatal ("flush failed: " ++ e)],
      hag, by simp [Path.res, Res.trace, trRows1], by simp⟩
  | query2Fail s1 e =>
    right; left
    exact ⟨s1, [.rowsClose, .stdout "flushing to s3\n", .conn none, .beginTx none,
        .txExec flushSQL none, .commit none, .connClose, .stdout queryBanner,
        .stdout "after flush:\n", .query selectSQL (some e), .fatal e], hag,
      by simp [Path.res, Res.trace, trQuery2, trRows1], by simp⟩
  | done s1 s2 =>
    right; right
    exact ⟨s1, s2, [.rowsClose, .stdout "flushing to s3\n", .conn none, .beginTx none,
        .txExec flushSQL none, .commit none, .connClose, .stdout queryBanner,
        .stdout "after flush:\n"], [.rowsClose, .connectorClose, .dbClose], hag.1, hag.2,
      by simp [trQuery2, trRows1], by simp [Path.res, Res.trace], by simp, by simp⟩

/-- C10. In every run of `main` with a valid clock reading, whenever a `SELECT`
sent at history `pre` is answered by a result that applies
`ORDER BY created_at DESC LIMIT 3` to all rows inserted so far and ignores the
`WHERE` clause (any order among equal timestamps), be it the query before or
the query after the flush, that result has three rows, row `b_0` of category
`B` is among them, the three rows are what `runTest` scans next, and the three
lines it prints next include `  b_0 B [BUG]`. -/
theorem filter_ignored_prints_bug (env : Env) (hv : env.now.Valid)
    (pre post : List Event) (result : List (String × String))
    (hsplit : (main env []).trace = pre ++ Event.query selectSQL none :: post)
    (hans : env.query pre selectSQL = .ok (scriptOf result))
    (hres : OrderLimitNoFilter (insertedRows pre) result) :
    insertedRows pre = sixRows env.now ∧
    result.length = 3 ∧ ("b_0", "B") ∈ result ∧
    (scannedOf post).take 3 = result ∧
    (stdoutOf post).take 3 = result.map (fun r => rowLine r.1 r.2) ∧
    "  b_0 B [BUG]\n" ∈ (stdoutOf post).take 3 := by
  rcases main_queries env with h | ⟨s1, rest, h1, htr, hrest⟩ |
    ⟨s1, s2, mid, rest, h1, h2, h12, htr, hmid, hrest⟩
  · exact absurd (by rw [hsplit]; simp) h
  · rw [htr] at hsplit
    rcases split_at_first _ _ _ _ (query_not_mem_trQuery1 env.now) hsplit with
      ⟨rfl, rfl⟩ | ⟨a1, -, hR⟩
    · exact ⟨insertedRows_trQuery1 _, bug_after_query env hv _ _ rest s1 result
        (insertedRows_trQuery1 _) h1 rfl hans hres⟩
    · exfalso
      refine no_split (x := Event.query selectSQL none) _ a1 post ?_ hR
      simp [query_not_mem_rowEvents, hrest]
  · rw [htr, h12] at hsplit
    have hsplit2 : trQuery1 env.now ++ Event.query selectSQL none ::
        ((rowEvents s1 ++ mid) ++ Event.query selectSQL none :: (rowEvents s2 ++ rest))
        = pre ++ Event.query selectSQL none :: post := by
      rw [← hsplit]; simp
    rcases split_at_first _ _ _ _ (query_not_mem_trQuery1 env.now) hsplit2 with
      ⟨rfl, rfl⟩ | ⟨a1, ha1, hR⟩
    · exact ⟨insertedRows_trQuery1 _, bug_after_query env hv _ _
        (mid ++ Event.query selectSQL none :: (rowEvents s2 ++ rest)) s1 result
        (insertedRows_trQuery1 _) h1 (by simp) hans hres⟩
    · have hno : Event.query selectSQL none ∉ rowEvents s1 ++ mid := by
        simp [query_not_mem_rowEvents, hmid]
      rcases split_at_first _ _ _ _ hno hR with ⟨rfl, rfl⟩ | ⟨a2, -, hR2⟩
      · have hpre : pre = trQuery2 env.now s1 := by rw [ha1, h12]
        subst hpre
        exact ⟨insertedRows_trQuery2 _ _, bug_after_query env hv _ _ rest s2 result
          (insertedRows_trQuery2 _ _) h2 rfl hans hres⟩
      · exfalso
        refine no_split (x := Event.query selectSQL none) _ a2 post ?_ hR2
        simp [query_not_mem_rowEvents, hrest]

theorem filter_ignored_prints_bug_witness :
    sampleNow.Valid ∧
    (main (worldOk sampleNow engineInlinedDefect) []).trace =
      trQuery1 sampleNow ++ Event.query selectSQL none :: samplePost ∧
    (worldOk sampleNow engineInlinedDefect).query (trQuery1 sampleNow) selectSQL =
      .ok (scriptOf sampleResult) ∧
    insertedRows (trQuery1 sampleNow) = sixRows (worldOk sampleNow engineInlinedDefect).now ∧
    sampleResult.length = 3 ∧ ("b_0", "B") ∈ sampleResult ∧
    (scannedOf samplePost).take 3 = sampleResult ∧
    (stdoutOf samplePost).take 3 = sampleResult.map (fun r => rowLine r.1 r.2) ∧
    "  b_0 B [BUG]\n" ∈ (stdoutOf samplePost).take 3 :=
  ⟨by decide, by decide!, rfl,
    filter_ignored_prints_bug (worldOk sampleNow engineInlinedDefect) (by decide)
      (trQuery1 sampleNow) samplePost sampleResult (by decide!) rfl
      ⟨_, List.perm_insertionSort _ _, pairwise_insertionSort_descOrder _, rfl⟩⟩

theorem installSQL_ne : installSQL ≠ insertSQL := by decide
theorem secretSQL_ne : secretSQL ≠ insertSQL := by decide
theorem attachSQL_ne : attachSQL ≠ insertSQL := by decide
theorem createSQL_ne : createSQL ≠ insertSQL := by decide

/-- C2. Whenever the query succeeds, `runTest` returns to its caller, and the
lines it prints are exactly one per row delivered by `rows.Next()`, in order,
of the form `  <id> <category> [<tag>]` with tag `ok` when the scanned category
equals `A` and `BUG` otherwise, however many rows are tagged `BUG`. -/
theorem runTest_prints_one_line_per_row (env : Env) (tr : List Event) (s : RowsScript)
    (h : env.query tr selectSQL = .ok s) :
    ∃ tr1, runTest env tr = .ret () tr1 ∧
      stdoutOf tr1 = stdoutOf tr ++ s.scans.map (fun o =>
        "  " ++ o.id ++ " " ++ o.cat ++ " [" ++ (if o.cat = "A" then "ok" else "BUG") ++ "]\n") := by
  rcases runTest_cases env tr with ⟨e, he, -⟩ | ⟨s1, hs, hr⟩
  · rw [h] at he; cases he
  · rw [h] at hs
    cases hs
    refine ⟨_, hr, ?_⟩
    have hso := stdoutOf_rowEvents s
    simp only [stdoutOf] at hso
    simp only [stdoutOf, List.filterMap_append, hso]
    simp [rowLine]

theorem runTest_prints_one_line_per_row_witness :
    ∃ tr1, runTest (worldOk sampleNow (fun _ _ => .ok mixedRows)) [] = .ret () tr1 ∧
      stdoutOf tr1 = stdoutOf [] ++ mixedRows.scans.map (fun o =>
        "  " ++ o.id ++ " " ++ o.cat ++ " [" ++ (if o.cat = "A" then "ok" else "BUG") ++ "]\n") :=
  runTest_prints_one_line_per_row (worldOk sampleNow (fun _ _ => .ok mixedRows)) [] mixedRows rfl

/-- C3. With a valid clock reading `now`, the timestamp `pairTime now i` that
the insert loop computes for index `i < 3` is a valid time exactly `i` minutes
before `now`; earlier indices are strictly later, successive ones exactly one
minute apart.  The `INSERT` statements `main` issues are a prefix of the list
below (all of it when no setup, create or insert step fails), in which `a_i`
and `b_i` carry the same timestamp `pairTime now i`. -/
theorem insert_timestamps (env : Env) (hv : env.now.Valid) :
    (∀ i, i < 3 → (pairTime env.now i).Valid ∧
      (pairTime env.now i).nanos = env.now.nanos - i * (60 * 1000000000)) ∧
    (∀ i j, i < j → j < 3 → (pairTime env.now i).After (pairTime env.now j)) ∧
    (∀ i, i + 1 < 3 →
      (pairTime env.now i).nanos - (pairTime env.now (i + 1)).nanos = 60 * 1000000000) ∧
    insertAttempts (main env []).trace <+:
      [[.str "a_0", .str "A", .time (pairTime env.now 0)],
       [.str "b_0", .str "B", .time (pairTime env.now 0)],
       [.str "a_1", .str "A", .time (pairTime env.now 1)],
       [.str "b_1", .str "B", .time (pairTime env.now 1)],
       [.str "a_2", .str "A", .time (pairTime env.now 2)],
       [.str "b_2", .str "B", .time (pairTime env.now 2)]] ∧
    ((∀ ev ∈ (main env []).trace, ev.failedExec = false) →
      (insertAttempts (main env []).trace).length = 6) := by
  refine ⟨?_, ?_, ?_, ?_, ?_⟩
  · intro i hi
    rw [pairTime_eq _ hv i hi]
    obtain ⟨h0, h1⟩ := hv
    refine ⟨⟨h0, h1⟩, ?_⟩
    simp only [Time.nanos]
    omega
  · intro i j hij hj
    rw [pairTime_eq _ hv i (by omega), pairTime_eq _ hv j hj]
    simp only [Time.After]
    omega
  · intro i hi
    rw [pairTime_eq _ hv i (by omega), pairTime_eq _ hv (i + 1) hi]
    simp only [Time.nanos]
    push_cast
    omega
  · obtain ⟨p, hp, -⟩ := main_path env
    rw [hp]
    have hr := insertAttempts_rowEvents
    simp only [insertAttempts] at hr
    cases p with
    | insertFail j e =>
      fin_cases j
      all_goals
        simp only [Path.res, Res.trace, insertAttempts, trQuery2, trRows1,
          List.filterMap_append, hr, List.append_nil]
        simp [trQuery1, trInserts, trAttach, trSecret, trInstall, trConnector, trStart,
          insertArgs, installSQL_ne, secretSQL_ne, attachSQL_ne, createSQL_ne]
    | _ =>
      simp only [Path.res, Res.trace, insertAttempts, trQuery2, trRows1, List.filterMap_append,
        hr, List.append_nil]
      simp [trQuery1, trInserts, trAttach, trSecret, trInstall, trConnector, trStart,
        insertArgs, installSQL_ne, secretSQL_ne, attachSQL_ne, createSQL_ne]
  · intro h
    have h1 : (main env []).trace.any Event.failedExec = false := by
      rw [List.any_eq_false]
      intro ev hev
      simp [h ev hev]
    obtain ⟨p, hp, -⟩ := main_path env
    rw [hp] at h1 ⊢
    have hr := insertAttempts_rowEvents
    simp only [insertAttempts] at hr
    cases p with
    | connectorFail e => simp [Path.res, Res.trace, Event.failedExec] at h1
    | installFail e => simp [Path.res, Res.trace, Event.failedExec] at h1
    | secretFail e => simp [Path.res, Res.trace, Event.failedExec] at h1
    | attachFail e => simp [Path.res, Res.trace, Event.failedExec] at h1
    | createFail e => simp [Path.res, Res.trace, Event.failedExec] at h1
    | insertFail j e => simp [Path.res, Res.trace, Event.failedExec] at h1
    | _ =>
      simp only [Path.res, Res.trace, insertAttempts, trQuery2, trRows1, List.filterMap_append,
        hr, List.append_nil]
      simp [trQuery1, trInserts, trAttach, trSecret, trInstall, trConnector, trStart,
        insertArgs, installSQL_ne, secretSQL_ne, attachSQL_ne, createSQL_ne]

theorem insert_timestamps_witness :
    sampleNow.Valid ∧
    (pairTime sampleNow 1).nanos = sampleNow.nanos - (1 : Nat) * (60 * 1000000000) ∧
    (pairTime sampleNow 0).After (pairTime sampleNow 2) ∧
    (insertAttempts (main (worldOk sampleNow engineCorrect) []).trace).length = 6 :=
  ⟨by decide,
   ((insert_timestamps (worldOk sampleNow engineCorrect) (by decide)).1 1 (by decide)).2,
   (insert_timestamps (worldOk sampleNow engineCorrect) (by decide)).2.1 0 2 (by decide)
     (by decide),
   (insert_timestamps (worldOk sampleNow engineCorrect) (by decide)).2.2.2.2 (by decide!)⟩

/-- C4. When no setup, create or insert step fails, `main` issues exactly six
`INSERT` statements, with the arguments below in this order: for each index the
category-`A` row comes before the category-`B` row; the number of inserts is
even and the six identifiers are pairwise distinct. -/
theorem six_inserts_in_order (env : Env)
    (h : ∀ ev ∈ (main env []).trace, ev.failedExec = false) :
    insertAttempts (main env []).trace =
      [[.str "a_0", .str "A", .time (pairTime env.now 0)],
       [.str "b_0", .str "B", .time (pairTime env.now 0)],
       [.str "a_1", .str "A", .time (pairTime env.now 1)],
       [.str "b_1", .str "B", .time (pairTime env.now 1)],
       [.str "a_2", .str "A", .time (pairTime env.now 2)],
       [.str "b_2", .str "B", .time (pairTime env.now 2)]] ∧
    (insertAttempts (main env []).trace).length = 6 ∧
    (insertAttempts (main env []).trace).length % 2 = 0 ∧
    ((insertAttempts (main env []).trace).map List.head?).Nodup := by
  have h1 : (main env []).trace.any Event.failedExec = false := by
    rw [List.any_eq_false]
    intro ev hev
    simp [h ev hev]
  have key : insertAttempts (main env []).trace =
      [[.str "a_0", .str "A", .time (pairTime env.now 0)],
       [.str "b_0", .str "B", .time (pairTime env.now 0)],
       [.str "a_1", .str "A", .time (pairTime env.now 1)],
       [.str "b_1", .str "B", .time (pairTime env.now 1)],
       [.str "a_2", .str "A", .time (pairTime env.now 2)],
       [.str "b_2", .str "B", .time (pairTime env.now 2)]] := by
    obtain ⟨p, hp, -⟩ := main_path env
    rw [hp] at h1 ⊢
    have hr := insertAttempts_rowEvents
    simp only [insertAttempts] at hr
    cases p with
    | connectorFail e => simp [Path.res, Res.trace, Event.failedExec] at h1
    | installFail e => simp [Path.res, Res.trace, Event.failedExec] at h1
    | secretFail e => simp [Path.res, Res.trace, Event.failedExec] at h1
    | attachFail e => simp [Path.res, Res.trace, Event.failedExec] at h1
    | createFail e => simp [Path.res, Res.trace, Event.failedExec] at h1
    | insertFail j e => simp [Path.res, Res.trace, Event.failedExec] at h1
    | _ =>
      simp only [Path.res, Res.trace, insertAttempts, trQuery2, trRows1, List.filterMap_append,
        hr, List.append_nil]
      simp [trQuery1, trInserts, trAttach, trSecret, trInstall, trConnector, trStart,
        insertArgs, installSQL_ne, secretSQL_ne, attachSQL_ne, createSQL_ne]
  rw [key]
  exact ⟨rfl, by simp, by simp, by simp⟩

theorem six_inserts_in_order_witness :
    (∀ ev ∈ (main worldQueryFails []).trace, ev.failedExec = false) ∧
    (insertAttempts (main worldQueryFails []).trace).length = 6 ∧
    ((insertAttempts (main worldQueryFails []).trace).map List.head?).Nodup :=
  ⟨by decide!, (six_inserts_in_order worldQueryFails (by decide!)).2.1,
    (six_inserts_in_order worldQueryFails (by decide!)).2.2.2⟩

/-- C5. In `flush`, when the flush procedure call returns an error, `Rollback`
is called, `Commit` is not, and `flush` returns that error; when the call
succeeds, `Rollback` is not called and `flush` returns what `Commit` returned.
`flush` returns an error exactly when one of its calls failed.  In `main`, once
a call of `flush` has failed the process exits with the message
`flush failed: ...` and only the pre-flush query has been sent. -/
theorem flush_error_handling (env : Env) (tr : List Event) :
    (∃ evs r, flush env tr = .ret r (tr ++ evs) ∧
      (∀ e, Event.txExec flushSQL (some e) ∈ evs →
        (∃ rb, Event.rollback rb ∈ evs) ∧ (∀ c, Event.commit c ∉ evs) ∧ r = some e) ∧
      (Event.txExec flushSQL none ∈ evs →
        (∀ rb, Event.rollback rb ∉ evs) ∧ ∃ c, Event.commit c ∈ evs ∧ r = c) ∧
      (r.isSome = evs.any Event.flushFailed)) ∧
    ((main env []).trace.any Event.flushFailed = true →
      (main env []).returned = false ∧
      queriesOf (main env []).trace = [selectSQL] ∧
      ∃ e, fatalsOf (main env []).trace = ["flush failed: " ++ e]) := by
  constructor
  · rcases flush_cases env tr with ⟨e, h⟩ | ⟨e, h⟩ | ⟨e, rb, h⟩ | ⟨c, h⟩
    · exact ⟨_, _, h, by simp, by simp, by simp [Event.flushFailed]⟩
    · exact ⟨_, _, h, by simp, by simp, by simp [Event.flushFailed]⟩
    · exact ⟨_, _, h, by simp, by simp, by simp [Event.flushFailed]⟩
    · exact ⟨_, _, h, by simp, by simp, by cases c <;> simp [Event.flushFailed]⟩
  · intro h
    obtain ⟨p, hp, -⟩ := main_path env
    rw [hp] at h ⊢
    have hf : ∀ s, (rowEvents s).any Event.flushFailed = false := by
      intro s
      rw [List.any_eq_false]
      intro ev hev
      simp [flushFailed_rowEvents s ev hev]
    have hq := queriesOf_rowEvents
    have hfa := fatalsOf_rowEvents
    simp only [queriesOf] at hq
    simp only [fatalsOf] at hfa
    cases p with
    | connectorFail e => simp [Path.res, Res.trace, trStart, Event.flushFailed] at h
    | installFail e => simp [Path.res, Res.trace, trConnector, trStart, Event.flushFailed] at h
    | secretFail e =>
      simp [Path.res, Res.trace, trInstall, trConnector, trStart, Event.flushFailed] at h
    | attachFail e =>
      simp [Path.res, Res.trace, trSecret, trInstall, trConnector, trStart,
        Event.flushFailed] at h
    | createFail e =>
      simp [Path.res, Res.trace, trAttach, trSecret, trInstall, trConnector, trStart,
        Event.flushFailed] at h
    | insertFail j e =>
      exfalso
      revert h
      fin_cases j <;>
      simp [Path.res, Res.trace, trInserts, insertArgs, trAttach, trSecret, trInstall,
        trConnector, trStart, Event.flushFailed]
    | query1Fail e =>
      simp [Path.res, Res.trace, trQuery1, trInserts, insertArgs, trAttach, trSecret, trInstall,
        trConnector, trStart, Event.flushFailed] at h
    | query2Fail s1 e =>
      simp [Path.res, Res.trace, trQuery2, trRows1, hf, trQuery1, trInserts, insertArgs,
        trAttach, trSecret, trInstall, trConnector, trStart, Event.flushFailed] at h
    | done s1 s2 =>
      simp [Path.res, Res.trace, trQuery2, trRows1, hf, trQuery1, trInserts, insertArgs,
        trAttach, trSecret, trInstall, trConnector, trStart, Event.flushFailed] at h
    | _ =>
      refine ⟨rfl, ?_, ?_⟩
      · simp only [Path.res, Res.trace, queriesOf, trRows1, List.filterMap_append, hq]
        simp [trQuery1, trInserts, insertArgs, trAttach, trSecret, trInstall, trConnector,
          trStart]
      · simp only [Path.res, Res.trace, fatalsOf, trRows1, List.filterMap_append, hfa]
        simp [trQuery1, trInserts, insertArgs, trAttach, trSecret, trInstall, trConnector,
          trStart]

theorem flush_error_handling_witness :
    (main worldFlushFails []).trace.any Event.flushFailed = true ∧
    (main worldFlushFails []).returned = false ∧
    queriesOf (main worldFlushFails []).trace = [selectSQL] :=
  ⟨by decide!, ((flush_error_handling worldFlushFails []).2 (by decide!)).1,
    ((flush_error_handling worldFlushFails []).2 (by decide!)).2.1⟩

/-- C6. `flush` always returns to its caller, and by then every resource it
acquired has been released: `conn.Close()` has run exactly as many times as a
connection was obtained (at most once) and is then the last call of `flush`;
`Commit` or `Rollback` has been called exactly as many times as a transaction
was begun (at most once), never both. -/
theorem flush_releases_resources (env : Env) (tr : List Event) :
    ∃ evs r, flush env tr = .ret r (tr ++ evs) ∧
      evs.count (.conn none) ≤ 1 ∧
      evs.count .connClose = evs.count (.conn none) ∧
      (evs.count (.conn none) = 0 ∨ evs.getLast? = some .connClose) ∧
      evs.count (.beginTx none) ≤ 1 ∧
      (evs.filter Event.endsTx).length = evs.count (.beginTx none) := by
  rcases flush_cases env tr with ⟨e, h⟩ | ⟨e, h⟩ | ⟨e, rb, h⟩ | ⟨c, h⟩
  · exact ⟨_, _, h, by simp, by simp, by simp, by simp, by simp [Event.endsTx]⟩
  · exact ⟨_, _, h, by simp, by simp, by simp, by simp, by simp [Event.endsTx]⟩
  · exact ⟨_, _, h, by simp, by simp, by simp, by simp, by simp [Event.endsTx]⟩
  · exact ⟨_, _, h, by simp, by simp, by simp, by simp, by simp [Event.endsTx]⟩

/-- C7 (behaviour of the code). When the second `rows.Scan` fails and row
iteration then stops with an error, `main` nevertheless runs to completion
without any fatal message: a line is printed for the row whose scan failed
(tagged `BUG`, its category left empty), the flush runs and the post-flush
query is sent. -/
theorem scan_and_iteration_errors_ignored :
    (main worldBrokenRows []).returned = true ∧
    fatalsOf (main worldBrokenRows []).trace = [] ∧
    Event.scan "a_1" ""
      (some "sql: Scan error on column index 1: converting NULL to string is unsupported")
      ∈ (main worldBrokenRows []).trace ∧
    Event.nextDone (some "driver: bad connection") ∈ (main worldBrokenRows []).trace ∧
    "  a_1  [BUG]\n" ∈ stdoutOf (main worldBrokenRows []).trace ∧
    queriesOf (main worldBrokenRows []).trace = [selectSQL, selectSQL] ∧
    Event.commit none ∈ (main worldBrokenRows []).trace := by
  decide!

/-- C8 (counterexample). When the `SELECT` of `runTest` fails with error
`boom`, the process exits with the single message `boom`, which does not
contain the text of the statement; when the flush procedure call fails with
`boom`, the single message is `flush failed: boom`, which does not contain the
text of the call. -/
theorem failure_message_lacks_statement_text :
    (main worldQueryFails []).returned = false ∧
    Event.query selectSQL (some "boom") ∈ (main worldQueryFails []).trace ∧
    fatalsOf (main worldQueryFails []).trace = ["boom"] ∧
    ¬ selectSQL.data <:+: "boom".data ∧
    (main worldFlushFails []).returned = false ∧
    Event.txExec flushSQL (some "boom") ∈ (main worldFlushFails []).trace ∧
    fatalsOf (main worldFlushFails []).trace = ["flush failed: boom"] ∧
    ¬ flushSQL.data <:+: "flush failed: boom".data := by
  decide!

theorem infix_execMsg_query (q e : String) : q.data <:+: (execMsg q e).data :=
  ⟨"Exec failed: ".data, "\nError: ".data ++ e.data, by simp [execMsg, String.data_append]⟩

theorem infix_execMsg_err (q e : String) : e.data <:+: (execMsg q e).data :=
  ⟨"Exec failed: ".data ++ q.data ++ "\nError: ".data, [], by simp [execMsg, String.data_append]⟩

theorem infix_flush_err (e : String) : e.data <:+: ("flush failed: " ++ e).data :=
  ⟨"flush failed: ".data, [], by simp [String.data_append]⟩

theorem infix_of_infix_flush_failed (e : String)
    (h : flushSQL.data <:+: ("flush failed: " ++ e).data) : flushSQL.data <:+: e.data := by
  obtain ⟨s, t, hst⟩ := h
  rw [String.data_append, List.append_assoc] at hst
  rcases List.append_eq_append_iff.mp hst with ⟨a, ha, hb⟩ | ⟨c, hc, hd⟩
  · cases a with
    | nil => exact ⟨[], t, by simpa using hb⟩
    | cons x a =>
      exfalso
      have hx : x = 'C' := by
        have := congrArg List.head? hb
        simpa [flushSQL] using this.symm
      have hmem : x ∈ "flush failed: ".data := by
        rw [ha]; simp
      rw [hx] at hmem
      revert hmem
      decide
  · exact ⟨c, t, by rw [hd, List.append_assoc]⟩

/-- C8 (amended). Whenever `main` exits, exactly one fatal message has been
printed, it is the last event, and it contains the underlying error message.
For a statement run through `mustExec` the message is
`Exec failed: <statement>\nError: <error>` and contains the statement text as
well; for the failing `SELECT` of `runTest` the message is the error alone; for
the failing flush procedure call (and a failing commit) it is `flush failed: `
followed by the error.  In the last two the statement text occurs exactly when
it occurs in the error message itself. -/
theorem fatal_message_contents (env : Env) (h : (main env []).returned = false) :
    ∃ msg e, fatalsOf (main env []).trace = [msg] ∧
      (main env []).trace.getLast? = some (.fatal msg) ∧
      e.data <:+: msg.data ∧
      ((Event.newConnector (some e) ∈ (main env []).trace ∧ msg = e) ∨
       (∃ q args, Event.exec q args (some e) ∈ (main env []).trace ∧
          msg = "Exec failed: " ++ q ++ "\nError: " ++ e ∧ q.data <:+: msg.data) ∨
       (Event.query selectSQL (some e) ∈ (main env []).trace ∧ msg = e ∧
          (selectSQL.data <:+: msg.data ↔ selectSQL.data <:+: e.data)) ∨
       (Event.conn (some e) ∈ (main env []).trace ∧
          msg = "flush failed: failed to get connection: " ++ e) ∨
       (Event.beginTx (some e) ∈ (main env []).trace ∧
          msg = "flush failed: failed to begin transaction: " ++ e) ∨
       (Event.txExec flushSQL (some e) ∈ (main env []).trace ∧ msg = "flush failed: " ++ e ∧
          (flushSQL.data <:+: msg.data ↔ flushSQL.data <:+: e.data)) ∨
       (Event.commit (some e) ∈ (main env []).trace ∧ msg = "flush failed: " ++ e)) := by
  obtain ⟨p, hp, -⟩ := main_path env
  rw [hp] at h ⊢
  have hfa := fatalsOf_rowEvents
  simp only [fatalsOf] at hfa
  have hfat : ∀ (l : List Event) (m : String),
      (l ++ [Event.fatal m]).getLast? = some (.fatal m) := by
    intro l m; simp
  cases p with
  | connectorFail e =>
    refine ⟨e, e, ?_, ?_, List.infix_refl _, Or.inl ⟨?_, rfl⟩⟩
    · simp [Path.res, Res.trace, fatalsOf, trStart]
    · simp [Path.res, Res.trace]
    · simp [Path.res, Res.trace]
  | installFail e =>
    refine ⟨execMsg installSQL e, e, ?_, ?_, infix_execMsg_err _ _,
      Or.inr (Or.inl ⟨installSQL, [], ?_, rfl, infix_execMsg_query _ _⟩)⟩
    · simp [Path.res, Res.trace, fatalsOf, trConnector, trStart]
    · simp [Path.res, Res.trace]
    · simp [Path.res, Res.trace]
  | secretFail e =>
    refine ⟨execMsg secretSQL e, e, ?_, ?_, infix_execMsg_err _ _,
      Or.inr (Or.inl ⟨secretSQL, [], ?_, rfl, infix_execMsg_query _ _⟩)⟩
    · simp [Path.res, Res.trace, fatalsOf, trInstall, trConnector, trStart]
    · simp [Path.res, Res.trace]
    · simp [Path.res, Res.trace]
  | attachFail e =>
    refine ⟨execMsg attachSQL e, e, ?_, ?_, infix_execMsg_err _ _,
      Or.inr (Or.inl ⟨attachSQL, [], ?_, rfl, infix_execMsg_query _ _⟩)⟩
    · simp [Path.res, Res.trace, fatalsOf, trSecret, trInstall, trConnector, trStart]
    · simp [Path.res, Res.trace]
    · simp [Path.res, Res.trace]
  | createFail e =>
    refine ⟨execMsg createSQL e, e, ?_, ?_, infix_execMsg_err _ _,
      Or.inr (Or.inl ⟨createSQL, [], ?_, rfl, infix_execMsg_query _ _⟩)⟩
    · simp [Path.res, Res.trace, fatalsOf, trAttach, trSecret, trInstall, trConnector, trStart]
    · simp [Path.res, Res.trace]
    · simp [Path.res, Res.trace]
  | insertFail j e =>
    refine ⟨execMsg insertSQL e, e, ?_, ?_, infix_execMsg_err _ _,
      Or.inr (Or.inl ⟨insertSQL, (insertArgs env.now).getD j [], ?_, rfl,
        infix_execMsg_query _ _⟩)⟩
    · fin_cases j <;>
      simp [Path.res, Res.trace, fatalsOf, trInserts, insertArgs, trAttach, trSecret, trInstall,
        trConnector, trStart]
    · simp [Path.res, Res.trace]
    · simp [Path.res, Res.trace]
  | query1Fail e =>
    refine ⟨e, e, ?_, ?_, List.infix_refl _,
      Or.inr (Or.inr (Or.inl ⟨?_, rfl, Iff.rfl⟩))⟩
    · simp [Path.res, Res.trace, fatalsOf, trQuery1, trInserts, insertArgs, trAttach, trSecret,
        trInstall, trConnector, trStart]
    · simp [Path.res, Res.trace]
    · simp [Path.res, Res.trace]
  | connFail s1 e =>
    refine ⟨"flush failed: " ++ ("failed to get connection: " ++ e), e, ?_, ?_, ?_,
      Or.inr (Or.inr (Or.inr (Or.inl ⟨?_, ?_⟩)))⟩
    · simp only [Path.res, Res.trace, fatalsOf, trRows1, List.filterMap_append, hfa]
      simp [trQuery1, trInserts, insertArgs, trAttach, trSecret, trInstall, trConnector, trStart]
    · simp [Path.res, Res.trace]
    · exact ⟨"flush failed: ".data ++ "failed to get connection: ".data, [],
        by simp [String.data_append]⟩
    · simp [Path.res, Res.trace]
    · rw [← String.append_assoc]; rfl
  | beginFail s1 e =>
    refine ⟨"flush failed: " ++ ("failed to begin transaction: " ++ e), e, ?_, ?_, ?_,
      Or.inr (Or.inr (Or.inr (Or.inr (Or.inl ⟨?_, ?_⟩))))⟩
    · simp only [Path.res, Res.trace, fatalsOf, trRows1, List.filterMap_append, hfa]
      simp [trQuery1, trInserts, insertArgs, trAttach, trSecret, trInstall, trConnector, trStart]
    · simp [Path.res, Res.trace]
    · exact ⟨"flush failed: ".data ++ "failed to begin transaction: ".data, [],
        by simp [String.data_append]⟩
    · simp [Path.res, Res.trace]
    · rw [← String.append_assoc]; rfl
  | callFail s1 e rb =>
    refine ⟨"flush failed: " ++ e, e, ?_, ?_, infix_flush_err e,
      Or.inr (Or.inr (Or.inr (Or.inr (Or.inr (Or.inl ⟨?_, rfl,
        ⟨infix_of_infix_flush_failed e, fun h => h.trans (infix_flush_err e)⟩⟩)))))⟩
    · simp only [Path.res, Res.trace, fatalsOf, trRows1, List.filterMap_append, hfa]
      simp [trQuery1, trInserts, insertArgs, trAttach, trSecret, trInstall, trConnector, trStart]
    · simp [Path.res, Res.trace]
    · simp [Path.res, Res.trace]
  | commitFail s1 e =>
    refine ⟨"flush failed: " ++ e, e, ?_, ?_, infix_flush_err e,
      Or.inr (Or.inr (Or.inr (Or.inr (Or.inr (Or.inr ⟨?_, rfl⟩)))))⟩
    · simp only [Path.res, Res.trace, fatalsOf, trRows1, List.filterMap_append, hfa]
      simp [trQuery1, trInserts, insertArgs, trAttach, trSecret, trInstall, trConnector, trStart]
    · simp [Path.res, Res.trace]
    · simp [Path.res, Res.trace]
  | query2Fail s1 e =>
    refine ⟨e, e, ?_, ?_, List.infix_refl _,
      Or.inr (Or.inr (Or.inl ⟨?_, rfl, Iff.rfl⟩))⟩
    · simp only [Path.res, Res.trace, fatalsOf, trQuery2, trRows1, List.filterMap_append, hfa]
      simp [trQuery1, trInserts, insertArgs, trAttach, trSecret, trInstall, trConnector, trStart]
    · simp [Path.res, Res.trace]
    · simp [Path.res, Res.trace]
  | done s1 s2 => simp [Path.res, Res.returned] at h

theorem fatal_message_contents_witness :
    (main worldInstallFails []).returned = false ∧
    ∃ msg e, fatalsOf (main worldInstallFails []).trace = [msg] ∧
      (main worldInstallFails []).trace.getLast? = some (.fatal msg) ∧
      e.data <:+: msg.data ∧
      ((Event.newConnector (some e) ∈ (main worldInstallFails []).trace ∧ msg = e) ∨
       (∃ q args, Event.exec q args (some e) ∈ (main worldInstallFails []).trace ∧
          msg = "Exec failed: " ++ q ++ "\nError: " ++ e ∧ q.data <:+: msg.data) ∨
       (Event.query selectSQL (some e) ∈ (main worldInstallFails []).trace ∧ msg = e ∧
          (selectSQL.data <:+: msg.data ↔ selectSQL.data <:+: e.data)) ∨
       (Event.conn (some e) ∈ (main worldInstallFails []).trace ∧
          msg = "flush failed: failed to get connection: " ++ e) ∨
       (Event.beginTx (some e) ∈ (main worldInstallFails []).trace ∧
          msg = "flush failed: failed to begin transaction: " ++ e) ∨
       (Event.txExec flushSQL (some e) ∈ (main worldInstallFails []).trace ∧
          msg = "flush failed: " ++ e ∧
          (flushSQL.data <:+: msg.data ↔ flushSQL.data <:+: e.data)) ∨
       (Event.commit (some e) ∈ (main worldInstallFails []).trace ∧
          msg = "flush failed: " ++ e)) :=
  ⟨by decide!, fatal_message_contents worldInstallFails (by decide!)⟩

theorem afterFirstFailure_of_all_ok (l : List Event)
    (h : l.any Event.failedStep = false) : afterFirstFailure l = [] := by
  induction l with
  | nil => rfl
  | cons a l ih =>
    simp only [List.any_cons, Bool.or_eq_false_iff] at h
    simp only [afterFirstFailure, List.dropWhile_cons, h.1, Bool.not_false, if_true]
    exact ih h.2

theorem afterFirstFailure_split (pre : List Event) (ev : Event) (post : List Event)
    (hpre : pre.any Event.failedStep = false) (hev : ev.failedStep = true) :
    afterFirstFailure (pre ++ ev :: post) = post := by
  induction pre with
  | nil => simp [afterFirstFailure, List.dropWhile_cons, hev]
  | cons a l ih =>
    simp only [List.any_cons, Bool.or_eq_false_iff] at hpre
    simp only [afterFirstFailure, List.cons_append, List.dropWhile_cons, hpre.1, Bool.not_false,
      if_true]
    exact ih hpre.2

/-- Statements sent by `main` relative to the failures the program checks
(`Event.failedStep`: a failed `NewConnector`, `Exec`, `Query`, `Conn`,
`BeginTx`, `ExecContext` or `Commit`; a failing `rows.Scan` or row iteration is
not among them).  The statements are a prefix of the fixed sequence, or that
sequence up to the failed flush call followed by its rollback; the sequence is
complete, and `main` returns, when no such call fails; such a failure makes the
process exit, and after the first one no statement is sent other than the
rollback of a failed flush call. -/
theorem statement_sequence (env : Env) :
    (stmtsOf (main env []).trace <+: fixedSequence env.now ∨
      stmtsOf (main env []).trace = (fixedSequence env.now).take 13 ++ [.rollback]) ∧
    ((main env []).trace.any Event.failedStep = false →
      stmtsOf (main env []).trace = fixedSequence env.now ∧ (main env []).returned = true) ∧
    ((main env []).trace.any Event.failedStep = true → (main env []).returned = false) ∧
    (stmtsOf (afterFirstFailure (main env []).trace) = [] ∨
      (stmtsOf (afterFirstFailure (main env []).trace) = [.rollback] ∧
        ∃ e, Event.txExec flushSQL (some e) ∈ (main env []).trace)) := by
  obtain ⟨p, hp, -⟩ := main_path env
  rw [hp]
  have hany : ∀ s, (rowEvents s).any Event.failedStep = false := by
    intro s
    rw [List.any_eq_false]
    intro ev hev
    simp [failedStep_rowEvents s ev hev]
  refine ⟨?_, ?_, ?_, ?_⟩
  · cases p with
    | insertFail j e =>
      left
      fin_cases j <;>
      simp [Path.res, Res.trace, stmtsOf_rowEvents, trQuery2, trRows1, trQuery1, trInserts,
        trAttach, trSecret, trInstall, trConnector, trStart, fixedSequence, insertArgs, stmtsOf,
        stmtOf]
    | callFail s1 e rb =>
      right
      simp [Path.res, Res.trace, stmtsOf_rowEvents, trQuery2, trRows1, trQuery1, trInserts,
        trAttach, trSecret, trInstall, trConnector, trStart, fixedSequence, insertArgs, stmtsOf,
        stmtOf]
    | _ =>
      left
      simp [Path.res, Res.trace, stmtsOf_rowEvents, trQuery2, trRows1, trQuery1, trInserts,
        trAttach, trSecret, trInstall, trConnector, trStart, fixedSequence, insertArgs, stmtsOf,
        stmtOf]
  · intro h
    cases p with
    | done s1 s2 =>
      refine ⟨?_, rfl⟩
      simp [Path.res, Res.trace, stmtsOf_rowEvents, trQuery2, trRows1, trQuery1, trInserts,
        trAttach, trSecret, trInstall, trConnector, trStart, fixedSequence, insertArgs, stmtsOf,
        stmtOf]
    | _ =>
      exfalso
      simp [Path.res, Res.trace, Event.failedStep] at h
  · intro h
    cases p with
    | done s1 s2 =>
      exfalso
      simp [Path.res, Res.trace, hany, trQuery2, trRows1, trQuery1, trInserts,
        trAttach, trSecret, trInstall, trConnector, trStart, insertArgs, Event.failedStep] at h
    | _ => rfl
  · have hpre1 : (trQuery1 env.now).any Event.failedStep = false := by
      simp [trQuery1, trInserts, trAttach, trSecret, trInstall, trConnector, trStart, insertArgs,
        Event.failedStep]
    have hpre2 : ∀ s1, (trRows1 env.now s1).any Event.failedStep = false := by
      intro s1
      simp [trRows1, hpre1, hany, Event.failedStep]
    have hpre3 : ∀ s1, (trQuery2 env.now s1).any Event.failedStep = false := by
      intro s1
      simp [trQuery2, hpre2, Event.failedStep]
    cases p with
    | connectorFail e =>
      left
      simp only [Path.res, Res.trace]
      rw [afterFirstFailure_split]
      · rfl
      · simp [trStart, Event.failedStep]
      · rfl
    | installFail e =>
      left
      simp only [Path.res, Res.trace]
      rw [afterFirstFailure_split]
      · rfl
      · simp [trConnector, trStart, Event.failedStep]
      · rfl
    | secretFail e =>
      left
      simp only [Path.res, Res.trace]
      rw [afterFirstFailure_split]
      · rfl
      · simp [trInstall, trConnector, trStart, Event.failedStep]
      · rfl
    | attachFail e =>
      left
      simp only [Path.res, Res.trace]
      rw [afterFirstFailure_split]
      · rfl
      · simp [trSecret, trInstall, trConnector, trStart, Event.failedStep]
      · rfl
    | createFail e =>
      left
      simp only [Path.res, Res.trace]
      rw [afterFirstFailure_split]
      · rfl
      · simp [trAttach, trSecret, trInstall, trConnector, trStart, Event.failedStep]
      · rfl
    | insertFail j e =>
      left
      simp only [Path.res, Res.trace]
      rw [afterFirstFailure_split]
      · rfl
      · fin_cases j <;>
        simp [trInserts, trAttach, trSecret, trInstall, trConnector, trStart, insertArgs,
          Event.failedStep]
      · rfl
    | query1Fail e =>
      left
      simp only [Path.res, Res.trace]
      rw [afterFirstFailure_split]
      · rfl
      · exact hpre1
      · rfl
    | connFail s1 e =>
      left
      simp only [Path.res, Res.trace]
      rw [afterFirstFailure_split]
      · rfl
      · exact hpre2 s1
      · rfl
    | beginFail s1 e =>
      left
      simp only [Path.res, Res.trace]
      rw [show trRows1 env.now s1 ++ [Event.conn none, Event.beginTx (some e), Event.connClose,
          Event.fatal ("flush failed: " ++ ("failed to begin transaction: " ++ e))]
        = (trRows1 env.now s1 ++ [Event.conn none]) ++ Event.beginTx (some e) ::
          [Event.connClose,
            Event.fatal ("flush failed: " ++ ("failed to begin transaction: " ++ e))] by simp]
      rw [afterFirstFailure_split]
      · rfl
      · simp [hpre2, Event.failedStep]
      · rfl
    | callFail s1 e rb =>
      right
      simp only [Path.res, Res.trace]
      rw [show trRows1 env.now s1 ++ [Event.conn none, Event.beginTx none,
          Event.txExec flushSQL (some e), Event.rollback rb, Event.connClose,
          Event.fatal ("flush failed: " ++ e)]
        = (trRows1 env.now s1 ++ [Event.conn none, Event.beginTx none]) ++
          Event.txExec flushSQL (some e) ::
          [Event.rollback rb, Event.connClose, Event.fatal ("flush failed: " ++ e)] by simp]
      rw [afterFirstFailure_split]
      · exact ⟨rfl, e, by simp⟩
      · simp [hpre2, Event.failedStep]
      · rfl
    | commitFail s1 e =>
      left
      simp only [Path.res, Res.trace]
      rw [show trRows1 env.now s1 ++ [Event.conn none, Event.beginTx none,
          Event.txExec flushSQL none, Event.commit (some e), Event.connClose,
          Event.fatal ("flush failed: " ++ e)]
        = (trRows1 env.now s1 ++ [Event.conn none, Event.beginTx none,
            Event.txExec flushSQL none]) ++ Event.commit (some e) ::
          [Event.connClose, Event.fatal ("flush failed: " ++ e)] by simp]
      rw [afterFirstFailure_split]
      · rfl
      · simp [hpre2, Event.failedStep]
      · rfl
    | query2Fail s1 e =>
      left
      simp only [Path.res, Res.trace]
      rw [afterFirstFailure_split]
      · rfl
      · exact hpre3 s1
      · rfl
    | done s1 s2 =>
      left
      simp only [Path.res, Res.trace]
      rw [afterFirstFailure_of_all_ok _ (by simp [hpre3, hany, Event.failedStep])]
      rfl

theorem statement_sequence_witness :
    (main (worldOk sampleNow engineCorrect) []).trace.any Event.failedStep = false ∧
    stmtsOf (main (worldOk sampleNow engineCorrect) []).trace = fixedSequence sampleNow ∧
    (main worldFlushFails []).trace.any Event.failedStep = true ∧
    (main worldFlushFails []).returned = false :=
  ⟨by decide!, ((statement_sequence (worldOk sampleNow engineCorrect)).2.1 (by decide!)).1,
    by decide!, (statement_sequence worldFlushFails).2.2.1 (by decide!)⟩

/-- C9 (behaviour of the code). When row iteration of the pre-flush query stops
with an error, that failing query step is the first failed call of the run, yet
`main` goes on to send `BEGIN`, the flush procedure call, `COMMIT` and the
second `SELECT`, and returns without any fatal message. -/
theorem statements_after_failed_iteration :
    ((main worldIterationError []).trace.dropWhile (fun ev => !ev.failedCall)).head? =
      some (.nextDone (some "driver: bad connection")) ∧
    stmtsOf (afterFirstFailedCall (main worldIterationError []).trace) =
      [.begin, .txExec flushSQL, .commit, .query selectSQL] ∧
    stmtsOf (main worldIterationError []).trace = fixedSequence sampleNow ∧
    (main worldIterationError []).returned = true ∧
    fatalsOf (main worldIterationError []).trace = [] := by
  decide!

end Repro
